import Mathlib

/-!
Verification of the GDQL query-compilation pipeline (lexer, parser, planner,
SQL generator, executor row mapping) against its natural-language specification.
The Go sources are shallowly embedded as executable Lean definitions; machine
integers are modelled as Int/Nat, Go slices as List, Go error returns as
Except/Option.  Builder-style string construction (strings.Builder) is modelled
as string concatenation in the order of the WriteString calls.
-/

namespace GDQL

/-! ## Small string library (ASCII models of the Go strings functions used) -/

/-- ASCII lower-casing of one character; models Go strings.ToLower on the
ASCII inputs that occur in this code base. -/
def lowerCh (c : Char) : Char :=
  if 'A' ≤ c ∧ c ≤ 'Z' then Char.ofNat (c.toNat + 32) else c

/-- ASCII upper-casing of one character; models Go strings.ToUpper on ASCII. -/
def upperCh (c : Char) : Char :=
  if 'a' ≤ c ∧ c ≤ 'z' then Char.ofNat (c.toNat - 32) else c

/-- Lower-case a string character-wise (ASCII model of strings.ToLower). -/
def strLower (s : String) : String := ⟨s.data.map lowerCh⟩

/-- Upper-case a string character-wise (ASCII model of strings.ToUpper). -/
def strUpper (s : String) : String := ⟨s.data.map upperCh⟩

/-- Go strings.HasSuffix. -/
def strHasSuffix (s suf : String) : Bool := suf.data.isSuffixOf s.data

/-- Go strings.TrimSuffix. -/
def strTrimSuffix (s suf : String) : String :=
  if strHasSuffix s suf then ⟨s.data.take (s.data.length - suf.data.length)⟩ else s

/-- Whitespace characters trimmed by Go strings.TrimSpace (ASCII subset). -/
def isSpaceCh (c : Char) : Bool := c = ' ' ∨ c = '\t' ∨ c = '\n' ∨ c = '\r'

/-- Go strings.TrimSpace (ASCII model). -/
def trimSpace (s : String) : String :=
  ⟨((s.data.dropWhile isSpaceCh).reverse.dropWhile isSpaceCh).reverse⟩

/-- Accumulate a decimal value over digit characters; none on a non-digit. -/
def digitsValAux : Nat → List Char → Option Nat
  | acc, [] => some acc
  | acc, c :: r => if c.isDigit then digitsValAux (acc * 10 + (c.toNat - 48)) r else none

/-- Value of a non-empty all-digit character list. -/
def digitsVal : List Char → Option Nat
  | [] => none
  | l => digitsValAux 0 l

/-- Go strconv.Atoi: optional sign then digits (overflow not modelled). -/
def atoi (s : String) : Option Int :=
  match s.data with
  | [] => none
  | c :: r =>
    if c = '+' then (digitsVal r).map Int.ofNat
    else if c = '-' then (digitsVal r).map (fun n => -(n : Int))
    else (digitsVal (c :: r)).map Int.ofNat

/-- Decimal digit character for n % 10. -/
def digitCh (n : Nat) : Char := Char.ofNat (48 + n % 10)

/-- Fuel-driven decimal printing of a natural number (fuel ≥ 1 + number of
digits suffices; callers pass n+1). -/
def natDecAux : Nat → Nat → List Char
  | 0, _ => []
  | f + 1, n => if n < 10 then [digitCh n] else natDecAux f (n / 10) ++ [digitCh (n % 10)]

/-- Decimal representation of a natural number (models fmt %d / strconv output). -/
def natDec (n : Nat) : String := ⟨natDecAux (n + 1) n⟩

/-- Zero-pad the decimal form of a non-negative Int to 2 digits (Go layout "01"/"02"). -/
def pad2 (n : Int) : String :=
  let s := natDec n.toNat
  ⟨List.replicate (2 - s.data.length) '0'⟩ ++ s

/-- Zero-pad the decimal form of a non-negative Int to 4 digits (Go layout "2006"). -/
def pad4 (n : Int) : String :=
  let s := natDec n.toNat
  ⟨List.replicate (4 - s.data.length) '0'⟩ ++ s

/-- Concatenation of a list of strings in order; models sequential
strings.Builder WriteString calls. -/
def concatAll : List String → String
  | [] => ""
  | s :: r => s ++ concatAll r

/-- Go strings.Join. -/
def joinSep (sep : String) : List String → String
  | [] => ""
  | s :: r => match r with
    | [] => s
    | _ => s ++ sep ++ joinSep sep r

/-- Number of question-mark characters (SQL placeholders) in a string. -/
def countQ (s : String) : Nat := s.data.count '?'

/-! ## Time model

Go time.Time values in this code are always built by time.Date with in-range
month/day/hour/minute/second components in UTC, and are only compared and
formatted.  They are modelled by their components; comparison is lexicographic,
which agrees with instant comparison for in-range components. -/

structure GTime where
  year : Int
  month : Int
  day : Int
  hour : Int
  minute : Int
  second : Int
deriving DecidableEq, Repr

/-- Lexicographic order on time components; agrees with Go time comparison for
normalized in-range components. -/
def GTime.leb (a b : GTime) : Bool :=
  if a.year < b.year then true else if b.year < a.year then false
  else if a.month < b.month then true else if b.month < a.month then false
  else if a.day < b.day then true else if b.day < a.day then false
  else if a.hour < b.hour then true else if b.hour < a.hour then false
  else if a.minute < b.minute then true else if b.minute < a.minute then false
  else decide (a.second ≤ b.second)

/-- Models time.Date(y, mo, d, h, mi, s, 0, time.UTC) for in-range components
(Go's normalization of out-of-range components is not modelled; every call
site in the embedded code passes in-range literals or parser-produced values
that the claims exercise only in range). -/
def mkTime (y mo d h mi s : Int) : GTime := ⟨y, mo, d, h, mi, s⟩

/-- Go t.Format("2006-01-02") for non-negative in-range components. -/
def formatDate (t : GTime) : String := pad4 t.year ++ "-" ++ pad2 t.month ++ "-" ++ pad2 t.day

/-- The zero Go time.Time (January 1, year 1, 00:00:00 UTC). -/
def zeroTime : GTime := ⟨1, 1, 1, 0, 0, 0⟩

/-! ## IR (internal/ir/ir.go) -/

/-- Query type; Go declares it as an int with four named constants, so it is
modelled as Int to keep the unknown-value default branch of Generate statable. -/
def QueryTypeShows : Int := 0
def QueryTypeSongs : Int := 1
def QueryTypePerformances : Int := 2
def QueryTypeSetlist : Int := 3

inductive SegueOp where
  | segue
  | brk
  | tease
deriving DecidableEq, Repr

inductive SetPosition where
  | any
  | set1
  | set2
  | set3
  | encore
deriving DecidableEq, Repr

inductive PositionOp where
  | opened
  | closed
  | equals
deriving DecidableEq, Repr

inductive CompOp where
  | gt
  | lt
  | eq
  | gte
  | lte
  | neq
deriving DecidableEq, Repr

inductive LogicOp where
  | and
  | or
deriving DecidableEq, Repr

inductive OutputFormat where
  | default
  | json
  | csv
  | setlist
  | calendar
  | table
deriving DecidableEq, Repr

structure ResolvedDateRange where
  start : GTime
  stop : GTime
deriving DecidableEq, Repr

structure SegueChainIR where
  songIDs : List Int
  operators : List SegueOp
deriving DecidableEq, Repr

inductive ConditionIR where
  | position (set : SetPosition) (op : PositionOp) (songID : Int)
  | lyrics (words : List String) (op : LogicOp)
  | length (songID : Option Int) (op : CompOp) (seconds : Int)
  | played (songID : Int)
  | guest (name : String)
deriving DecidableEq, Repr

structure OrderByIR where
  field : String
  desc : Bool
deriving DecidableEq, Repr

structure QueryIR where
  qtype : Int
  dateRange : Option ResolvedDateRange := none
  singleDate : Option GTime := none
  songID : Option Int := none
  segueChain : Option SegueChainIR := none
  conditions : List ConditionIR := []
  orderBy : Option OrderByIR := none
  limit : Option Int := none
  outputFmt : OutputFormat := .default
deriving DecidableEq, Repr

/-! ## SQL generator (internal/planner/sqlgen) -/

/-- A bound SQL argument: Go interface{} values are ints or strings here. -/
inductive Arg where
  | i (n : Int)
  | s (v : String)
deriving DecidableEq, Repr

structure SQLQuery where
  SQL : String
  Args : List Arg
deriving DecidableEq, Repr

/-- sqlgen compOpSQL. -/
def compOpSQL : CompOp → String
  | .gt => ">"
  | .lt => "<"
  | .eq => "="
  | .gte => ">="
  | .lte => "<="
  | .neq => "!="

/-- segue.go segueOpToSQL. -/
def segueOpToSQL : SegueOp → String
  | .segue => ">"
  | .brk => ">>"
  | .tease => "~>"

/-- sqlgen setPositionToNumber (Encore is treated as set 3; default 0). -/
def setPositionToNumber : SetPosition → Int
  | .set1 => 1
  | .set2 => 2
  | .set3 => 3
  | .encore => 3
  | .any => 0

/-- sqlgen positionCondition: EXISTS subquery and its two bound arguments. -/
def positionCondition (set : SetPosition) (op : PositionOp) (songID : Int) :
    String × List Arg :=
  let setNum := setPositionToNumber set
  match op with
  | .opened =>
    ("EXISTS (SELECT 1 FROM performances p WHERE p.show_id = s.id AND p.set_number = ? AND p.song_id = ? AND p.is_opener = 1)",
     [.i setNum, .i songID])
  | .closed =>
    ("EXISTS (SELECT 1 FROM performances p WHERE p.show_id = s.id AND p.set_number = ? AND p.song_id = ? AND p.is_closer = 1)",
     [.i setNum, .i songID])
  | .equals =>
    ("EXISTS (SELECT 1 FROM performances p WHERE p.show_id = s.id AND p.set_number = ? AND p.song_id = ?)",
     [.i setNum, .i songID])

/-- One iteration of the whereShows condition switch: the WHERE fragment and
arguments a condition contributes (none: the condition is ignored there). -/
def condPartShows : ConditionIR → Option (String × List Arg)
  | .position set op songID => some (positionCondition set op songID)
  | .played songID =>
    some ("EXISTS (SELECT 1 FROM performances p WHERE p.show_id = s.id AND p.song_id = ?)",
          [.i songID])
  | .guest name =>
    some ("EXISTS (SELECT 1 FROM performances p WHERE p.show_id = s.id AND p.guest IS NOT NULL AND p.guest != '' AND (p.guest = ? OR p.guest LIKE ?))",
          [.s name, .s ("%" ++ name ++ "%")])
  | _ => none

/-- The whereShows loop over q.Conditions (parts and args in source order). -/
def whereCondsShows : List ConditionIR → List String × List Arg
  | [] => ([], [])
  | c :: r =>
    let rest := whereCondsShows r
    match condPartShows c with
    | none => rest
    | some (p, a) => (p :: rest.1, a ++ rest.2)

/-- sqlgen whereShows: date-range filter first, then per-condition filters,
joined with AND. -/
def whereShows (q : QueryIR) : String × List Arg :=
  let dp : List String × List Arg :=
    match q.dateRange with
    | none => ([], [])
    | some r => (["s.date >= ? AND s.date <= ?"],
                 [.s (formatDate r.start), .s (formatDate r.stop)])
  let cp := whereCondsShows q.conditions
  (joinSep " AND " (dp.1 ++ cp.1), dp.2 ++ cp.2)

/-- whereShows-analogue inside BuildSegueShowsSQL (uses alias px; the guest
variant lacks the guest != '' conjunct of the non-segue path). -/
def condPartSegue : ConditionIR → Option (String × List Arg)
  | .position set op songID =>
    let setNum := setPositionToNumber set
    let part :=
      match op with
      | .opened => "EXISTS (SELECT 1 FROM performances px WHERE px.show_id = s.id AND px.set_number = ? AND px.song_id = ? AND px.is_opener = 1)"
      | .closed => "EXISTS (SELECT 1 FROM performances px WHERE px.show_id = s.id AND px.set_number = ? AND px.song_id = ? AND px.is_closer = 1)"
      | .equals => "EXISTS (SELECT 1 FROM performances px WHERE px.show_id = s.id AND px.set_number = ? AND px.song_id = ?)"
    some (part, [.i setNum, .i songID])
  | .played songID =>
    some ("EXISTS (SELECT 1 FROM performances px WHERE px.show_id = s.id AND px.song_id = ?)",
          [.i songID])
  | .guest name =>
    some ("EXISTS (SELECT 1 FROM performances px WHERE px.show_id = s.id AND px.guest IS NOT NULL AND (px.guest = ? OR px.guest LIKE ?))",
          [.s name, .s ("%" ++ name ++ "%")])
  | _ => none

/-- The condition loop of BuildSegueShowsSQL. -/
def whereCondsSegue : List ConditionIR → List String × List Arg
  | [] => ([], [])
  | c :: r =>
    let rest := whereCondsSegue r
    match condPartSegue c with
    | none => rest
    | some (p, a) => (p :: rest.1, a ++ rest.2)

/-- Alias p<k> as printed by fmt.Sprintf("p%d", k). -/
def pA (k : Nat) : String := "p" ++ natDec k

/-- Iteration i (0-based) of the segue FROM-chain loop: the first iteration
introduces p1; each later one self-joins performances on show, set and
adjacent position. -/
def segueChainFrag (i : Nat) : String :=
  if i = 0 then "performances p1"
  else
    " JOIN performances " ++ pA (i + 1) ++ " ON " ++ pA i ++ ".show_id = " ++
    pA (i + 1) ++ ".show_id AND " ++ pA i ++ ".set_number = " ++ pA (i + 1) ++
    ".set_number AND " ++ pA i ++ ".position = " ++ pA (i + 1) ++ ".position - 1"

/-- Iteration i of the songs-join loop: JOIN songs s<i+1> bound to a song id. -/
def segueSongFrag (i : Nat) : String :=
  " JOIN songs s" ++ natDec (i + 1) ++ " ON p" ++ natDec (i + 1) ++ ".song_id = s" ++
  natDec (i + 1) ++ ".id AND s" ++ natDec (i + 1) ++ ".id = ?"

/-- Iteration i of the segue-type loop: the transition-type constraint. -/
def segueTypeFrag (i : Nat) : String := " AND p" ++ natDec (i + 1) ++ ".segue_type = ?"

/-- Operator padding in BuildSegueShowsSQL: append SegueOp.segue until the
vector has length m (no-op when already long enough). -/
def padOps (ops : List SegueOp) (m : Nat) : List SegueOp :=
  ops ++ List.replicate (m - ops.length) SegueOp.segue

/-- segue.go BuildSegueShowsSQL. -/
def BuildSegueShowsSQL (q : QueryIR) : Except String SQLQuery :=
  match q.segueChain with
  | none => .error "segue chain requires at least 2 songs"
  | some chain =>
    if chain.songIDs.length < 2 then .error "segue chain requires at least 2 songs"
    else
      let n := chain.songIDs.length
      let ops := padOps chain.operators (n - 1)
      let chainStr := concatAll ((List.range n).map segueChainFrag)
      let songStr := concatAll ((List.range n).map segueSongFrag)
      let segStr := concatAll ((List.range (n - 1)).map segueTypeFrag)
      let songArgs := chain.songIDs.map Arg.i
      let opArgs := (ops.take (n - 1)).map (fun o => Arg.s (segueOpToSQL o))
      let dp : List String × List Arg :=
        match q.dateRange with
        | none => ([], [])
        | some r => (["s.date >= ? AND s.date <= ?"],
                     [.s (formatDate r.start), .s (formatDate r.stop)])
      let cp := whereCondsSegue q.conditions
      let whereParts := dp.1 ++ cp.1
      let whereArgs := dp.2 ++ cp.2
      let whereStr := match whereParts with
        | [] => ""
        | _ => " WHERE " ++ joinSep " AND " whereParts
      let orderStr := match q.orderBy with
        | none => ""
        | some ob => " ORDER BY s.date " ++ (if ob.desc then "DESC" else "ASC")
      let body :=
        "SELECT DISTINCT s.id, s.date, s.venue_id, v.name AS venue, v.city, v.state, s.notes, s.rating FROM " ++
        chainStr ++ songStr ++ segStr ++
        " JOIN shows s ON p1.show_id = s.id LEFT JOIN venues v ON s.venue_id = v.id" ++
        whereStr ++ orderStr
      match q.limit with
      | some k => .ok ⟨body ++ " LIMIT ?", songArgs ++ opArgs ++ whereArgs ++ [.i k]⟩
      | none => .ok ⟨body, songArgs ++ opArgs ++ whereArgs⟩

/-- sqlgen orderBy (shared by shows/songs/performances; field falls through to
pfx.lower(field) when not in the column table). -/
def orderBySQL (q : QueryIR) (pfx : String) : String :=
  match q.orderBy with
  | none => ""
  | some ob =>
    let field := if ob.field = "" then "date" else ob.field
    let dir := if ob.desc then "DESC" else "ASC"
    let col0 := pfx ++ "." ++ strLower field
    let up := strUpper field
    let col :=
      if up = "DATE" then pfx ++ ".date"
      else if up = "LENGTH" then (if pfx = "p" then "p.length_seconds" else col0)
      else if up = "RATING" then pfx ++ ".rating"
      else if up = "NAME" then pfx ++ ".name"
      else if up = "TIMES_PLAYED" then pfx ++ ".times_played"
      else col0
    "ORDER BY " ++ col ++ " " ++ dir

/-- Fixed column list of the non-segue shows query. -/
def showsBase : String :=
  "SELECT s.id, s.date, s.venue_id, v.name AS venue, v.city, v.state, s.notes, s.rating FROM shows s LEFT JOIN venues v ON s.venue_id = v.id"

/-- sqlgen genShows (non-segue path; a segue chain of ≥ 2 songs is routed to
BuildSegueShowsSQL, a shorter chain falls through to the plain query). -/
def genShows (q : QueryIR) : Except String SQLQuery :=
  if (match q.segueChain with | some c => decide (2 ≤ c.songIDs.length) | none => false) then
    BuildSegueShowsSQL q
  else
    let wp := whereShows q
    let sql1 := showsBase ++ (if wp.1 = "" then "" else " WHERE " ++ wp.1)
    let ags1 : List Arg := if wp.1 = "" then [] else wp.2
    let ob := orderBySQL q "s"
    let sql2 := sql1 ++ (if ob = "" then "" else " " ++ ob)
    match q.limit with
    | some k => .ok ⟨sql2 ++ " LIMIT ?", ags1 ++ [.i k]⟩
    | none => .ok ⟨sql2, ags1⟩

/-- The genSongs condition loop: only lyrics conditions with a non-empty word
list contribute (one LIKE per word, joined by the condition's logic operator). -/
def songsCondParts : List ConditionIR → List String × List Arg
  | [] => ([], [])
  | .lyrics words op :: r =>
    let rest := songsCondParts r
    if words.length = 0 then rest
    else
      let likes := words.map (fun _ => "l.lyrics LIKE ?")
      let opStr := if op = .or then " OR " else " AND "
      (("EXISTS (SELECT 1 FROM lyrics l WHERE l.song_id = songs.id AND (" ++
        joinSep opStr likes ++ "))") :: rest.1,
       words.map (fun w => Arg.s ("%" ++ w ++ "%")) ++ rest.2)
  | _ :: r => songsCondParts r

/-- sqlgen genSongs. -/
def genSongs (q : QueryIR) : Except String SQLQuery :=
  let cp := songsCondParts q.conditions
  let dp : List String × List Arg :=
    match q.dateRange with
    | none => ([], [])
    | some r => (["first_played >= ? AND last_played <= ?"],
                 [.s (formatDate r.start), .s (formatDate r.stop)])
  let parts := cp.1 ++ dp.1
  let ags := cp.2 ++ dp.2
  let sql1 := "SELECT id, name, short_name, writers, first_played, last_played, times_played FROM songs" ++
    (match parts with
     | [] => ""
     | _ => " WHERE " ++ joinSep " AND " parts)
  let ob := orderBySQL q "songs"
  let sql2 := sql1 ++ (if ob = "" then "" else " " ++ ob)
  match q.limit with
  | some k => .ok ⟨sql2 ++ " LIMIT ?", ags ++ [.i k]⟩
  | none => .ok ⟨sql2, ags⟩

/-- The genPerformances condition loop: length conditions append a comparison
filter; everything else is ignored. -/
def perfCondSQL : List ConditionIR → String × List Arg
  | [] => ("", [])
  | .length _ op sec :: r =>
    let rest := perfCondSQL r
    (" AND p.length_seconds " ++ compOpSQL op ++ " ?" ++ rest.1, .i sec :: rest.2)
  | _ :: r => perfCondSQL r

/-- sqlgen genPerformances.  Go dereferences *q.SongID unconditionally; a nil
SongID is a runtime panic there, modelled as a distinguished error. -/
def genPerformances (q : QueryIR) : Except String SQLQuery :=
  match q.songID with
  | none => .error "panic: nil pointer dereference (q.SongID)"
  | some sid =>
    let base := "SELECT p.id, p.show_id, p.song_id, p.set_number, p.position, p.segue_type, p.length_seconds FROM performances p JOIN shows s ON p.show_id = s.id WHERE p.song_id = ?"
    let ds : String × List Arg :=
      match q.dateRange with
      | none => ("", [])
      | some r => (" AND s.date >= ? AND s.date <= ?",
                   [.s (formatDate r.start), .s (formatDate r.stop)])
    let cs := perfCondSQL q.conditions
    let ob := orderBySQL q "p"
    let sql1 := base ++ ds.1 ++ cs.1 ++ (if ob = "" then "" else " " ++ ob)
    let ags := Arg.i sid :: (ds.2 ++ cs.2)
    match q.limit with
    | some k => .ok ⟨sql1 ++ " LIMIT ?", ags ++ [.i k]⟩
    | none => .ok ⟨sql1, ags⟩

/-- sqlgen genSetlist: requires SingleDate. -/
def genSetlist (q : QueryIR) : Except String SQLQuery :=
  match q.singleDate with
  | none => .error "setlist query requires a date"
  | some d =>
    .ok ⟨"SELECT p.id, p.show_id, p.song_id, p.set_number, p.position, p.segue_type, p.length_seconds, songs.name FROM performances p JOIN shows s ON p.show_id = s.id JOIN songs ON p.song_id = songs.id WHERE s.date = ? ORDER BY p.set_number, p.position",
         [.s (formatDate d)]⟩

/-- sqlgen Generate: dispatch on the query-type tag; unknown tags error. -/
def Generate (q : QueryIR) : Except String SQLQuery :=
  if q.qtype = QueryTypeShows then genShows q
  else if q.qtype = QueryTypeSongs then genSongs q
  else if q.qtype = QueryTypePerformances then genPerformances q
  else if q.qtype = QueryTypeSetlist then genSetlist q
  else .error "unknown query type"

/-! ## AST (internal/ast/ast.go) -/

namespace Ast

inductive SegueOp where
  | segue
  | brk
  | tease
deriving DecidableEq, Repr

inductive SetPosition where
  | any
  | set1
  | set2
  | set3
  | encore
deriving DecidableEq, Repr

inductive PositionOp where
  | opened
  | closed
  | equals
deriving DecidableEq, Repr

inductive CompOp where
  | gt
  | lt
  | eq
  | gte
  | lte
  | neq
deriving DecidableEq, Repr

inductive LogicOp where
  | and
  | or
deriving DecidableEq, Repr

inductive OutputFormat where
  | default
  | json
  | csv
  | setlist
  | calendar
  | table
deriving DecidableEq, Repr

structure SongRef where
  name : String
  negated : Bool := false
deriving DecidableEq, Repr

/-- ast.Date: 1-based month/day, 0 means unspecified; season holds a pseudo-date
string literal when one was given. -/
structure Date where
  year : Int := 0
  month : Int := 0
  day : Int := 0
  season : String := ""
deriving DecidableEq, Repr

inductive EraAlias where
  | primal
  | europe72
  | wallOfSound
  | hiatus
  | brent
  | vince
deriving DecidableEq, Repr

/-- ast.DateRange (the End field is named stop; end is reserved in Lean). -/
structure DateRange where
  start : Option Date := none
  stop : Option Date := none
  era : Option EraAlias := none
deriving DecidableEq, Repr

inductive Condition where
  | segue (songs : List SongRef) (operators : List SegueOp)
  | position (set : SetPosition) (op : PositionOp) (song : SongRef)
  | played (song : SongRef)
  | length (song : Option SongRef) (op : CompOp) (duration : String)
  | guest (name : String)
deriving DecidableEq, Repr

structure WhereClause where
  conditions : List Condition := []
  operators : List LogicOp := []
deriving DecidableEq, Repr

inductive WithCondition where
  | lyrics (words : List String) (op : LogicOp)
  | lengthW (op : CompOp) (duration : String)
  | guestW (name : String)
deriving DecidableEq, Repr

structure WithClause where
  conditions : List WithCondition := []
deriving DecidableEq, Repr

structure OrderClause where
  field : String
  desc : Bool
deriving DecidableEq, Repr

/-- ast.ShowQuery (From is named fromRange; from is reserved in Lean). -/
structure ShowQuery where
  fromRange : Option DateRange := none
  whereC : Option WhereClause := none
  orderBy : Option OrderClause := none
  limit : Option Int := none
  outputFmt : OutputFormat := .default
deriving DecidableEq, Repr

structure SongQuery where
  withC : Option WithClause := none
  written : Option DateRange := none
  orderBy : Option OrderClause := none
  limit : Option Int := none
deriving DecidableEq, Repr

structure PerformanceQuery where
  song : SongRef
  fromRange : Option DateRange := none
  withC : Option WithClause := none
  orderBy : Option OrderClause := none
  limit : Option Int := none
deriving DecidableEq, Repr

structure SetlistQuery where
  date : Option Date := none
deriving DecidableEq, Repr

inductive Query where
  | show (q : ShowQuery)
  | song (q : SongQuery)
  | perf (q : PerformanceQuery)
  | setlist (q : SetlistQuery)
deriving DecidableEq, Repr

end Ast

/-! ## Date expander (internal/planner/expander/date.go) -/

/-- expander ExpandEra: fixed closed intervals per era. -/
def ExpandEra : Ast.EraAlias → Option ResolvedDateRange
  | .primal => some ⟨mkTime 1965 1 1 0 0 0, mkTime 1969 12 31 23 59 59⟩
  | .europe72 => some ⟨mkTime 1972 3 1 0 0 0, mkTime 1972 5 31 23 59 59⟩
  | .wallOfSound => some ⟨mkTime 1974 1 1 0 0 0, mkTime 1974 12 31 23 59 59⟩
  | .hiatus => some ⟨mkTime 1975 1 1 0 0 0, mkTime 1975 12 31 23 59 59⟩
  | .brent => some ⟨mkTime 1979 1 1 0 0 0, mkTime 1990 12 31 23 59 59⟩
  | .vince => some ⟨mkTime 1990 1 1 0 0 0, mkTime 1995 12 31 23 59 59⟩

/-- expander Expand: era aliases take precedence; otherwise the start year
opens the range and the end year (or the start year again) closes it.  The
Go function can only return a nil error, so the error channel is omitted. -/
def Expand (dr : Ast.DateRange) : Option ResolvedDateRange :=
  match dr.era with
  | some e => ExpandEra e
  | none =>
    match dr.start with
    | none => none
    | some st =>
      let s := mkTime st.year 1 1 0 0 0
      let e := match dr.stop with
        | none => mkTime st.year 12 31 23 59 59
        | some en => mkTime en.year 12 31 23 59 59
      some ⟨s, e⟩

/-- expander ExpandDate: missing year defaults to 1970, missing month/day to 1. -/
def ExpandDate (d : Ast.Date) : GTime :=
  let y := if d.year = 0 then 1970 else d.year
  let mo := if d.month = 0 then 1 else d.month
  let dy := if d.day = 0 then 1 else d.day
  mkTime y mo dy 0 0 0

/-! ## Planner (internal/planner/planner.go) -/

/-- A SongResolver as the planner sees it: Resolve yields an id or a
song-not-found failure (the only resolver error the planner handles), and
Suggest yields did-you-mean candidates. -/
structure Resolver where
  resolve : String → Option Int
  suggest : String → List String

/-- The planner error surface relevant to these claims. -/
inductive PlanError where
  | songNotFound (name : String) (suggestions : List String) (hint : Option String)
deriving DecidableEq, Repr

/-- Operator-facing hint attached when no suggestions exist (text abridged;
no claim inspects it). -/
def emptyDBHint : String := "The database may be empty or this song was not imported."

/-- planner wrapSongNotFound: decorate a not-found name with suggestions, or
with the fixed hint when none exist. -/
def wrapSongNotFound (r : Resolver) (name : String) : PlanError :=
  let sugg := r.suggest name
  .songNotFound name sugg (if sugg.length = 0 then some emptyDBHint else none)

/-- Resolve a song name through the resolver, wrapping failures. -/
def resolveS (r : Resolver) (name : String) : Except PlanError Int :=
  match r.resolve name with
  | some id => .ok id
  | none => .error (wrapSongNotFound r name)

/-- planner parseDuration: lower-case and trim, multiply by 60 for a literal
"min" suffix and by 1 for a literal "sec" suffix; empty or unrecognized unit
yields zero with no error; a bad number yields zero with an error flag. -/
def parseDuration (s : String) : Int × Bool :=
  let t := trimSpace (strLower s)
  if t = "" then (0, false)
  else if strHasSuffix t "min" then
    let u := trimSpace (strTrimSuffix t "min")
    match atoi u with
    | none => (0, true)
    | some n => (n * 60, false)
  else if strHasSuffix t "sec" then
    let u := trimSpace (strTrimSuffix t "sec")
    match atoi u with
    | none => (0, true)
    | some n => (n * 1, false)
  else (0, false)

def astSegueOpToIR : Ast.SegueOp → SegueOp
  | .segue => .segue
  | .brk => .brk
  | .tease => .tease

def astSetPosToIR : Ast.SetPosition → SetPosition
  | .set1 => .set1
  | .set2 => .set2
  | .set3 => .set3
  | .encore => .encore
  | .any => .any

def astPosOpToIR : Ast.PositionOp → PositionOp
  | .opened => .opened
  | .closed => .closed
  | .equals => .equals

def astCompOpToIR : Ast.CompOp → CompOp
  | .gt => .gt
  | .lt => .lt
  | .eq => .eq
  | .gte => .gte
  | .lte => .lte
  | .neq => .neq

def astLogicOpToIR : Ast.LogicOp → LogicOp
  | .or => .or
  | .and => .and

def astOutputToIR : Ast.OutputFormat → OutputFormat
  | .json => .json
  | .csv => .csv
  | .setlist => .setlist
  | .calendar => .calendar
  | .table => .table
  | .default => .default

/-- Resolve every song of a segue condition in order (first failure wins). -/
def resolveAll (r : Resolver) : List Ast.SongRef → Except PlanError (List Int)
  | [] => .ok []
  | sr :: rest => do
    let id ← resolveS r sr.name
    let t ← resolveAll r rest
    .ok (id :: t)

/-- planner segueToIR. -/
def segueToIR (r : Resolver) (songs : List Ast.SongRef) (ops : List Ast.SegueOp) :
    Except PlanError SegueChainIR := do
  let ids ← resolveAll r songs
  .ok ⟨ids, ops.map astSegueOpToIR⟩

/-- planner conditionToIR: a segue condition reaching it is dropped (nil, nil
in Go); the others resolve their songs and parse their duration. -/
def conditionToIR (r : Resolver) : Ast.Condition → Except PlanError (Option ConditionIR)
  | .segue _ _ => .ok none
  | .position set op song => do
    let id ← resolveS r song.name
    .ok (some (.position (astSetPosToIR set) (astPosOpToIR op) id))
  | .played song => do
    let id ← resolveS r song.name
    .ok (some (.played id))
  | .length songOpt op dur =>
    match songOpt with
    | some sr => do
      let id ← resolveS r sr.name
      .ok (some (.length (some id) (astCompOpToIR op) (parseDuration dur).1))
    | none => .ok (some (.length none (astCompOpToIR op) (parseDuration dur).1))
  | .guest name => .ok (some (.guest name))

/-- The planShow WHERE-condition loop.  The lift into the segue chain happens
only at loop index 0 (modelled by the first flag); a dropped condition
(conditionToIR returning none) is not appended. -/
def planShowConds (r : Resolver) :
    Bool → List Ast.Condition → Except PlanError (Option SegueChainIR × List ConditionIR)
  | _, [] => .ok (none, [])
  | first, c :: rest =>
    match c, first with
    | .segue songs ops, true => do
      let chain ← segueToIR r songs ops
      let t ← planShowConds r false rest
      .ok (some chain, t.2)
    | _, _ => do
      let condO ← conditionToIR r c
      let t ← planShowConds r false rest
      match condO with
      | none => .ok (t.1, t.2)
      | some cd => .ok (t.1, cd :: t.2)

/-- planner planShow. -/
def planShow (r : Resolver) (s : Ast.ShowQuery) : Except PlanError QueryIR := do
  let dr := match s.fromRange with
    | none => none
    | some f => Expand f
  let ct ← match s.whereC with
    | none => pure ((none : Option SegueChainIR), ([] : List ConditionIR))
    | some wc => planShowConds r true wc.conditions
  .ok { qtype := QueryTypeShows, dateRange := dr, segueChain := ct.1,
        conditions := ct.2,
        orderBy := s.orderBy.map (fun o => OrderByIR.mk o.field o.desc),
        limit := s.limit, outputFmt := astOutputToIR s.outputFmt }

/-- planner withConditionToIR (durations parsed with the error swallowed). -/
def withConditionToIR : Ast.WithCondition → Except PlanError ConditionIR
  | .lyrics words op => .ok (.lyrics words (astLogicOpToIR op))
  | .lengthW op dur => .ok (.length none (astCompOpToIR op) (parseDuration dur).1)
  | .guestW name => .ok (.guest name)

/-- The with-condition loops of planSong / planPerformance. -/
def planWithConds : List Ast.WithCondition → Except PlanError (List ConditionIR)
  | [] => .ok []
  | c :: rest => do
    let cd ← withConditionToIR c
    let t ← planWithConds rest
    .ok (cd :: t)

/-- planner planSong (an Expand failure on WRITTEN is dropped silently). -/
def planSong (s : Ast.SongQuery) : Except PlanError QueryIR := do
  let dr := match s.written with
    | none => none
    | some w => Expand w
  let conds ← match s.withC with
    | none => pure ([] : List ConditionIR)
    | some wc => planWithConds wc.conditions
  .ok { qtype := QueryTypeSongs, dateRange := dr, conditions := conds,
        orderBy := s.orderBy.map (fun o => OrderByIR.mk o.field o.desc),
        limit := s.limit }

/-- planner planPerformance. -/
def planPerformance (r : Resolver) (p : Ast.PerformanceQuery) : Except PlanError QueryIR := do
  let id ← resolveS r p.song.name
  let dr := match p.fromRange with
    | none => none
    | some f => Expand f
  let conds ← match p.withC with
    | none => pure ([] : List ConditionIR)
    | some wc => planWithConds wc.conditions
  .ok { qtype := QueryTypePerformances, songID := some id, dateRange := dr,
        conditions := conds,
        orderBy := p.orderBy.map (fun o => OrderByIR.mk o.field o.desc),
        limit := p.limit }

/-- planner planSetlist: a non-nil date (whatever its contents) is expanded
with ExpandDate and stored in SingleDate. -/
def planSetlist (sl : Ast.SetlistQuery) : Except PlanError QueryIR :=
  match sl.date with
  | none => .ok { qtype := QueryTypeSetlist }
  | some d => .ok { qtype := QueryTypeSetlist, singleDate := some (ExpandDate d) }

/-- planner Plan: dispatch on the query variant. -/
def Plan (r : Resolver) : Ast.Query → Except PlanError QueryIR
  | .show q => planShow r q
  | .song q => planSong q
  | .perf q => planPerformance r q
  | .setlist q => planSetlist q

/-! ## Lexer (internal/lexer/lexer.go, internal/token/token.go)

Source positions are carried by Go tokens but inspected by no claim; they are
omitted from the embedding.  The lexer is modelled over the rune list of the
input; loops are given fuel bounded by the input length (every iteration
consumes at least one rune, so the bound is never reached). -/

inductive TokType where
  | EOF
  | ILLEGAL
  | SHOWS
  | SONGS
  | PERFORMANCES
  | SETLIST
  | FROM
  | WHERE
  | WITH
  | WRITTEN
  | ORDER
  | BY
  | LIMIT
  | AS
  | AND
  | OR
  | NOT
  | OF
  | INTO
  | THEN
  | TEASE
  | SET1
  | SET2
  | SET3
  | ENCORE
  | OPENED
  | CLOSED
  | LYRICS
  | LENGTH
  | FIRST
  | LAST
  | COUNT
  | DISTINCT
  | PLAYED
  | GUEST
  | FOR
  | ASC
  | DESC
  | STRING
  | NUMBER
  | DURATION
  | GT
  | GTGT
  | TILDE_GT
  | EQ
  | LT
  | GTEQ
  | LTEQ
  | NEQ
  | MINUS
  | LPAREN
  | RPAREN
  | COMMA
  | SEMICOLON
  | SLASH
deriving DecidableEq, Repr

structure Tok where
  ttype : TokType
  literal : String
deriving DecidableEq, Repr

/-- lexer isQuote: ASCII and Unicode double-quote characters. -/
def isQuoteCh (c : Char) : Bool :=
  c = '"' ∨ c.toNat = 0x201C ∨ c.toNat = 0x201D ∨ c.toNat = 0x201E ∨
  c.toNat = 0x201F ∨ c.toNat = 0xFF02

/-- ASCII model of unicode.IsLetter (all claim inputs are ASCII). -/
def isLetterCh (c : Char) : Bool := c.isAlpha

def isIdentCh (c : Char) : Bool := isLetterCh c ∨ c.isDigit ∨ c = '_' ∨ c = '.'

/-- lexer keyword table (lookupIdent). -/
def lookupIdent : String → TokType
  | "SHOWS" => .SHOWS
  | "SONGS" => .SONGS
  | "PERFORMANCES" => .PERFORMANCES
  | "SETLIST" => .SETLIST
  | "FROM" => .FROM
  | "WHERE" => .WHERE
  | "WITH" => .WITH
  | "WRITTEN" => .WRITTEN
  | "ORDER" => .ORDER
  | "BY" => .BY
  | "LIMIT" => .LIMIT
  | "AS" => .AS
  | "AND" => .AND
  | "OR" => .OR
  | "NOT" => .NOT
  | "OF" => .OF
  | "INTO" => .INTO
  | "THEN" => .THEN
  | "TEASE" => .TEASE
  | "SET1" => .SET1
  | "SET2" => .SET2
  | "SET3" => .SET3
  | "ENCORE" => .ENCORE
  | "OPENED" => .OPENED
  | "CLOSED" => .CLOSED
  | "LYRICS" => .LYRICS
  | "LENGTH" => .LENGTH
  | "FIRST" => .FIRST
  | "LAST" => .LAST
  | "COUNT" => .COUNT
  | "DISTINCT" => .DISTINCT
  | "PLAYED" => .PLAYED
  | "GUEST" => .GUEST
  | "FOR" => .FOR
  | "ASC" => .ASC
  | "DESC" => .DESC
  | _ => .ILLEGAL

/-- lexer readString body: accumulate until a closing quote; a backslash
before a quote closes the string; escapes n, t, quote, backslash; any other
backslash pair keeps both characters; none signals an unterminated string. -/
def lexStrAux : List Char → List Char → Option (List Char × List Char)
  | _, [] => none
  | acc, c :: rest =>
    if isQuoteCh c then some (acc.reverse, rest)
    else if c = '\\' then
      match rest with
      | [] => none
      | c2 :: rest2 =>
        if isQuoteCh c2 then some (acc.reverse, rest2)
        else if c2 = 'n' then lexStrAux ('\n' :: acc) rest2
        else if c2 = 't' then lexStrAux ('\t' :: acc) rest2
        else if c2 = '"' ∨ c2 = '\\' then lexStrAux (c2 :: acc) rest2
        else lexStrAux (c2 :: '\\' :: acc) rest2
    else lexStrAux (c :: acc) rest

/-- lexer readIdent: take the identifier run and classify against keywords
(the literal is kept verbatim either way). -/
def lexIdent (l : List Char) : Tok × List Char :=
  let lit := l.takeWhile isIdentCh
  let rest := l.dropWhile isIdentCh
  let s : String := ⟨lit⟩
  let tt := lookupIdent (strUpper s)
  if tt = TokType.ILLEGAL then (⟨.ILLEGAL, s⟩, rest) else (⟨tt, s⟩, rest)

/-- Does the character list start with the given pattern string? (models
strings.HasPrefix on an already-lowered list). -/
def startsWith : List Char → List Char → Bool
  | _, [] => true
  | [], _ :: _ => false
  | c :: cs, p :: ps => c = p ∧ startsWith cs ps

/-- lexer isDurationSuffix: the eight unit words. -/
def isDurationSuffix (s : String) : Bool :=
  let t := strLower s
  t = "min" ∨ t = "mins" ∨ t = "minute" ∨ t = "minutes" ∨
  t = "sec" ∨ t = "secs" ∨ t = "second" ∨ t = "seconds"

/-- lexer readNumberOrDuration: digits, then either a spaced unit word
(lookahead for min/minute/sec/second prefixes), an attached letter run
classified by isDurationSuffix (non-matching letters are consumed but dropped
from the NUMBER literal, as in the source), or a plain NUMBER. -/
def lexNumber (l : List Char) : Tok × List Char :=
  let digs := l.takeWhile Char.isDigit
  let rest := l.dropWhile Char.isDigit
  let numLit : String := ⟨digs⟩
  match rest with
  | ' ' :: _ =>
    let afterSp := rest.dropWhile (fun c => c = ' ')
    let low := afterSp.map lowerCh
    if afterSp ≠ [] ∧
       (startsWith low "min".data ∨ startsWith low "minute".data ∨
        startsWith low "sec".data ∨ startsWith low "second".data) then
      let letters := afterSp.takeWhile isLetterCh
      let rest2 := afterSp.dropWhile isLetterCh
      (⟨.DURATION, ⟨digs ++ letters⟩⟩, rest2)
    else (⟨.NUMBER, numLit⟩, rest)
  | c :: _ =>
    if isLetterCh c then
      let letters := rest.takeWhile isLetterCh
      let rest2 := rest.dropWhile isLetterCh
      let full : String := ⟨digs ++ letters⟩
      if isDurationSuffix ⟨letters⟩ then (⟨.DURATION, full⟩, rest2)
      else (⟨.NUMBER, numLit⟩, rest2)
    else (⟨.NUMBER, numLit⟩, rest)
  | [] => (⟨.NUMBER, numLit⟩, rest)

/-- lexer skipWhitespace (space, tab, CR, LF). -/
def skipWs (l : List Char) : List Char := l.dropWhile isSpaceCh

/-- The comment-skipping loop at the top of nextToken: while the input starts
with a line comment, drop to the newline and skip whitespace again. -/
def skipCommentsWs : Nat → List Char → List Char
  | 0, l => l
  | f + 1, l =>
    match l with
    | '-' :: '-' :: _ => skipCommentsWs f (skipWs (l.dropWhile (fun c => c ≠ '\n')))
    | _ => l

/-- The ILLEGAL literal produced after readChar in the quirky error branches
of the Go switch (the literal is the character after the offending one). -/
def illegalAfter (rest : List Char) : String :=
  match rest with
  | r :: _ => ⟨[r]⟩
  | [] => ⟨[Char.ofNat 0]⟩

/-- lexer nextToken (fuel covers the continue after a backslash-quote). -/
def lexNext : Nat → List Char → Tok × List Char
  | 0, l => (⟨.EOF, ""⟩, l)
  | f + 1, l0 =>
    let l1 := skipCommentsWs (l0.length + 1) (skipWs l0)
    match l1 with
    | [] => (⟨.EOF, ""⟩, [])
    | c :: rest =>
      if c = ';' then (⟨.SEMICOLON, ";"⟩, rest)
      else if c = ',' then (⟨.COMMA, ","⟩, rest)
      else if c = '/' then (⟨.SLASH, "/"⟩, rest)
      else if c = '(' then (⟨.LPAREN, "("⟩, rest)
      else if c = ')' then (⟨.RPAREN, ")"⟩, rest)
      else if c = '=' then (⟨.EQ, "="⟩, rest)
      else if c = '!' then
        match rest with
        | '=' :: r2 => (⟨.NEQ, "!="⟩, r2)
        | _ => (⟨.ILLEGAL, illegalAfter rest⟩, rest)
      else if c = '<' then
        match rest with
        | '=' :: r2 => (⟨.LTEQ, "<="⟩, r2)
        | _ => (⟨.LT, "<"⟩, rest)
      else if c = '>' then
        match rest with
        | '=' :: r2 => (⟨.GTEQ, ">="⟩, r2)
        | '>' :: r2 => (⟨.GTGT, ">>"⟩, r2)
        | _ => (⟨.GT, ">"⟩, rest)
      else if c = '-' then (⟨.MINUS, "-"⟩, rest)
      else if c = '~' then
        match rest with
        | '>' :: r2 => (⟨.TILDE_GT, "~>"⟩, r2)
        | _ => (⟨.ILLEGAL, illegalAfter rest⟩, rest)
      else if c = '\\' then
        match rest with
        | c2 :: _ => if isQuoteCh c2 then lexNext f rest else (⟨.ILLEGAL, "\\"⟩, rest)
        | [] => (⟨.ILLEGAL, "\\"⟩, [])
      else if isQuoteCh c then
        match lexStrAux [] rest with
        | none => (⟨.ILLEGAL, "unterminated string"⟩, [])
        | some (content, r2) => (⟨.STRING, ⟨content⟩⟩, r2)
      else if isLetterCh c ∨ c = '_' then lexIdent l1
      else if c.isDigit then lexNumber l1
      else (⟨.ILLEGAL, illegalAfter rest⟩, rest)

/-- Collect tokens until EOF (fuel bounded by the input length; every token
consumes at least one rune). -/
def lexTokens : Nat → List Char → List Tok
  | 0, _ => []
  | f + 1, l =>
    let tr := lexNext (l.length + 1) l
    if tr.1.ttype = TokType.EOF then [tr.1]
    else tr.1 :: lexTokens f tr.2

/-- Tokenize a whole source string (the finite stream ending in EOF). -/
def lexAll (s : String) : List Tok := lexTokens (s.data.length + 1) s.data

/-! ## Parser (internal/parser/parser.go)

The parser holds the unconsumed token list; cur/peek are its first two
elements, EOF-padded, matching the Go cur/peek pair fed from the lexer.
Parse errors carry the Go message text (positions and hints omitted). -/

def curTok (l : List Tok) : Tok := l.headD ⟨.EOF, ""⟩

def peekTok (l : List Tok) : Tok := (l.drop 1).headD ⟨.EOF, ""⟩

/-- parser parseEraAlias (matched on the literal, upper-cased; WALLOFOUND is a
typo preserved from the source). -/
def parseEraAlias (t : Tok) : Option Ast.EraAlias :=
  let lit := strUpper t.literal
  if lit = "PRIMAL" then some .primal
  else if lit = "EUROPE72" ∨ lit = "EUROPE" then some .europe72
  else if lit = "WALLOFOUND" ∨ lit = "WALLOFSOUND" then some .wallOfSound
  else if lit = "HIATUS" then some .hiatus
  else if lit = "BRENT_ERA" ∨ lit = "BRENT" then some .brent
  else if lit = "VINCE_ERA" ∨ lit = "VINCE" then some .vince
  else none

/-- parser parseDate: an era alias, or a bare year NUMBER. -/
def parseDate (toks : List Tok) :
    Except String ((Option Ast.Date × Option Ast.EraAlias) × List Tok) :=
  match parseEraAlias (curTok toks) with
  | some e => .ok ((none, some e), toks.drop 1)
  | none =>
    if (curTok toks).ttype = TokType.NUMBER then
      let y := (atoi (curTok toks).literal).getD 0
      .ok ((some { year := y }, none), toks.drop 1)
    else .error "expected date (year or era alias)"

/-- parser parseDateRange: a date, optionally followed by MINUS NUMBER for an
end year (stored verbatim, reversed ranges included). -/
def parseDateRange (toks : List Tok) : Except String (Ast.DateRange × List Tok) := do
  let (se, t1) ← parseDate toks
  let dr : Ast.DateRange :=
    match se.2 with
    | some e => { era := some e }
    | none => { start := se.1 }
  if (curTok t1).ttype = TokType.MINUS ∧ (peekTok t1).ttype = TokType.NUMBER then do
    let (se2, t3) ← parseDate (t1.drop 1)
    .ok ({ dr with stop := se2.1 }, t3)
  else .ok (dr, t1)

/-- parser parseSongRef: a STRING token holding the song name verbatim. -/
def parseSongRef (toks : List Tok) : Except String (Ast.SongRef × List Tok) :=
  if (curTok toks).ttype = TokType.STRING then
    .ok (⟨(curTok toks).literal, false⟩, toks.drop 1)
  else .error "expected quoted song name"

/-- parser parseSegueOp. -/
def parseSegueOp (t : Tok) : Option Ast.SegueOp :=
  match t.ttype with
  | .GT => some .segue
  | .GTGT => some .brk
  | .TILDE_GT => some .tease
  | .INTO => some .segue
  | .THEN => some .brk
  | .TEASE => some .tease
  | _ => none

/-- parser parseCompOp. -/
def parseCompOp (t : Tok) : Option Ast.CompOp :=
  match t.ttype with
  | .GT => some .gt
  | .LT => some .lt
  | .GTEQ => some .gte
  | .LTEQ => some .lte
  | .EQ => some .eq
  | .NEQ => some .neq
  | _ => none

/-- parser parseSetPosition. -/
def parseSetPosition (t : Tok) : Ast.SetPosition :=
  match t.ttype with
  | .SET1 => .set1
  | .SET2 => .set2
  | .SET3 => .set3
  | .ENCORE => .encore
  | _ => .any

/-- The greedy operator/song loop of parseSegueCondition. -/
def parseSegueLoop :
    Nat → List Ast.SongRef → List Ast.SegueOp → List Tok →
    Except String ((List Ast.SongRef × List Ast.SegueOp) × List Tok)
  | 0, songs, ops, toks => .ok ((songs, ops), toks)
  | f + 1, songs, ops, toks =>
    match parseSegueOp (curTok toks) with
    | none => .ok ((songs, ops), toks)
    | some op =>
      let t1 := toks.drop 1
      if (curTok t1).ttype = TokType.STRING then do
        let (ref, t2) ← parseSongRef t1
        parseSegueLoop f (songs ++ [ref]) (ops ++ [op]) t2
      else .error "expected song name after segue operator"

/-- parser parseSegueCondition: at least two songs are required. -/
def parseSegueCondition (toks : List Tok) : Except String (Ast.Condition × List Tok) := do
  let (ref, t1) ← parseSongRef toks
  let (so, t2) ← parseSegueLoop (t1.length + 1) [ref] [] t1
  if so.1.length < 2 then .error "segue requires at least two songs"
  else .ok (.segue so.1 so.2, t2)

/-- parser parseCondition (NOT, set-position, PLAYED, GUEST, LENGTH, segue). -/
def parseCondition (toks : List Tok) : Except String (Ast.Condition × List Tok) :=
  if (curTok toks).ttype = TokType.NOT then do
    let (ref, t1) ← parseSongRef (toks.drop 1)
    .ok (.played { ref with negated := true }, t1)
  else if (curTok toks).ttype = TokType.SET1 ∨ (curTok toks).ttype = TokType.SET2 ∨
          (curTok toks).ttype = TokType.SET3 ∨ (curTok toks).ttype = TokType.ENCORE then
    let set := parseSetPosition (curTok toks)
    let t1 := toks.drop 1
    let opR : Except String (Ast.PositionOp × List Tok) :=
      if (curTok t1).ttype = TokType.OPENED then .ok (.opened, t1.drop 1)
      else if (curTok t1).ttype = TokType.CLOSED then .ok (.closed, t1.drop 1)
      else if (curTok t1).ttype = TokType.EQ then .ok (.equals, t1.drop 1)
      else .error "expected OPENED, CLOSED, or ="
    match opR with
    | .error e => .error e
    | .ok (op, t2) =>
      match parseSongRef t2 with
      | .error e => .error e
      | .ok (ref, t3) => .ok (.position set op ref, t3)
  else if (curTok toks).ttype = TokType.PLAYED then do
    let (ref, t1) ← parseSongRef (toks.drop 1)
    .ok (.played ref, t1)
  else if (curTok toks).ttype = TokType.GUEST then
    let t1 := toks.drop 1
    if (curTok t1).ttype = TokType.STRING then
      .ok (.guest (curTok t1).literal, t1.drop 1)
    else .error "expected string after GUEST"
  else if (curTok toks).ttype = TokType.LENGTH then
    let t1 := toks.drop 1
    let srefR : Except String (Option Ast.SongRef × List Tok) :=
      if (curTok t1).ttype = TokType.LPAREN then
        match parseSongRef (t1.drop 1) with
        | .error e => .error e
        | .ok (ref, t2) =>
          if (curTok t2).ttype = TokType.RPAREN then .ok (some ref, t2.drop 1)
          else .error "expected )"
      else .ok (none, t1)
    match srefR with
    | .error e => .error e
    | .ok (sref, t3) =>
      match parseCompOp (curTok t3) with
      | none => .error "expected comparison operator"
      | some op =>
        let t4 := t3.drop 1
        if (curTok t4).ttype = TokType.DURATION ∨ (curTok t4).ttype = TokType.NUMBER then
          .ok (.length sref op (curTok t4).literal, t4.drop 1)
        else .error "expected duration (e.g. 20min)"
  else if (curTok toks).ttype = TokType.STRING then parseSegueCondition toks
  else .error "expected condition"

/-- The AND/OR chaining loop of parseWhereClause. -/
def parseWhereLoop :
    Nat → List Ast.Condition → List Ast.LogicOp → List Tok →
    Except String ((List Ast.Condition × List Ast.LogicOp) × List Tok)
  | 0, cs, ops, toks => .ok ((cs, ops), toks)
  | f + 1, cs, ops, toks =>
    if (curTok toks).ttype = TokType.AND ∨ (curTok toks).ttype = TokType.OR then do
      let op : Ast.LogicOp := if (curTok toks).ttype = TokType.AND then .and else .or
      let (c, t1) ← parseCondition (toks.drop 1)
      parseWhereLoop f (cs ++ [c]) (ops ++ [op]) t1
    else .ok ((cs, ops), toks)

/-- parser parseWhereClause. -/
def parseWhereClause (toks : List Tok) : Except String (Ast.WhereClause × List Tok) := do
  let (c, t1) ← parseCondition toks
  let (co, t2) ← parseWhereLoop (t1.length + 1) [c] [] t1
  .ok ({ conditions := co.1, operators := co.2 }, t2)

/-- Modifier results of parseModifiers (the Go function writes through
whichever query pointer is non-nil; callers pick the fields they keep). -/
structure Modifiers where
  orderBy : Option Ast.OrderClause := none
  limit : Option Int := none
  outputFmt : Ast.OutputFormat := .default
deriving DecidableEq, Repr

/-- parser isOrderField: STRING tokens, or a literal spelled exactly like one
of the five field names. -/
def isOrderField (t : Tok) : Bool :=
  match t.ttype with
  | .STRING => true
  | _ =>
    t.literal = "DATE" ∨ t.literal = "LENGTH" ∨ t.literal = "RATING" ∨
    t.literal = "NAME" ∨ t.literal = "TIMES_PLAYED"

/-- parser parseOutputFormat. -/
def parseOutputFormat (t : Tok) : Ast.OutputFormat :=
  let up := strUpper t.literal
  if up = "JSON" then .json
  else if up = "CSV" then .csv
  else if up = "SETLIST" then .setlist
  else if up = "CALENDAR" then .calendar
  else if up = "TABLE" then .table
  else .default

/-- parser parseModifiers: ORDER BY field [ASC|DESC], LIMIT n, AS format,
in any number and order. -/
def parseModifiers : Nat → Modifiers → List Tok → Except String (Modifiers × List Tok)
  | 0, m, toks => .ok (m, toks)
  | f + 1, m, toks =>
    if (curTok toks).ttype = TokType.ORDER then
      let t1 := toks.drop 1
      if (curTok t1).ttype ≠ TokType.BY then .error "expected BY after ORDER"
      else
        let t2 := t1.drop 1
        if (curTok t2).ttype ≠ TokType.STRING ∧ ¬ isOrderField (curTok t2) then
          .error "expected field name (DATE, LENGTH, RATING, etc.)"
        else
          let field := (curTok t2).literal
          let t3 := t2.drop 1
          if (curTok t3).ttype = TokType.DESC then
            parseModifiers f { m with orderBy := some ⟨field, true⟩ } (t3.drop 1)
          else if (curTok t3).ttype = TokType.ASC then
            parseModifiers f { m with orderBy := some ⟨field, false⟩ } (t3.drop 1)
          else parseModifiers f { m with orderBy := some ⟨field, false⟩ } t3
    else if (curTok toks).ttype = TokType.LIMIT then
      let t1 := toks.drop 1
      if (curTok t1).ttype ≠ TokType.NUMBER then .error "expected number after LIMIT"
      else parseModifiers f { m with limit := some ((atoi (curTok t1).literal).getD 0) } (t1.drop 1)
    else if (curTok toks).ttype = TokType.AS then
      let t1 := toks.drop 1
      parseModifiers f { m with outputFmt := parseOutputFormat (curTok t1) } (t1.drop 1)
    else .ok (m, toks)

/-- parser optionalSemicolon: an optional semicolon, then EOF is required. -/
def optionalSemicolon (toks : List Tok) : Except String (List Tok) :=
  let t1 := if (curTok toks).ttype = TokType.SEMICOLON then toks.drop 1 else toks
  if (curTok t1).ttype ≠ TokType.EOF then .error "unexpected token after query"
  else .ok t1

/-- parser parseShowQuery. -/
def parseShowQuery (toks : List Tok) : Except String Ast.Query := do
  let t0 := toks.drop 1
  let (fromR, t1) ←
    if (curTok t0).ttype = TokType.FROM then do
      let (dr, tx) ← parseDateRange (t0.drop 1)
      pure ((some dr : Option Ast.DateRange), tx)
    else pure (none, t0)
  let (whereC, t2) ←
    if (curTok t1).ttype = TokType.WHERE then do
      let (wc, tx) ← parseWhereClause (t1.drop 1)
      pure ((some wc : Option Ast.WhereClause), tx)
    else pure (none, t1)
  let (m, t3) ← parseModifiers (t2.length + 1) {} t2
  let _ ← optionalSemicolon t3
  .ok (.show { fromRange := fromR, whereC := whereC, orderBy := m.orderBy,
               limit := m.limit, outputFmt := m.outputFmt })

/-- The word list of a LYRICS(...) group: strings with optional commas. -/
def lyricsWords : Nat → List String → List Tok → List String × List Tok
  | 0, ws, toks => (ws, toks)
  | f + 1, ws, toks =>
    if (curTok toks).ttype = TokType.STRING then
      let ws2 := ws ++ [(curTok toks).literal]
      let t1 := toks.drop 1
      let t2 := if (curTok t1).ttype = TokType.COMMA then t1.drop 1 else t1
      lyricsWords f ws2 t2
    else (ws, toks)

/-- parser parseWithClause loop: LYRICS / LENGTH / GUEST groups separated by
commas (a LyricsCondition carries the zero-value operator, AND). -/
def parseWithLoop :
    Nat → List Ast.WithCondition → List Tok →
    Except String (List Ast.WithCondition × List Tok)
  | 0, cs, toks => .ok (cs, toks)
  | f + 1, cs, toks =>
    if (curTok toks).ttype = TokType.LYRICS then
      let t1 := toks.drop 1
      if (curTok t1).ttype ≠ TokType.LPAREN then .error "expected ( after LYRICS"
      else
        let wt := lyricsWords (t1.length + 1) [] (t1.drop 1)
        if (curTok wt.2).ttype ≠ TokType.RPAREN then .error "expected )"
        else
          let t4 := wt.2.drop 1
          let cs2 := cs ++ [Ast.WithCondition.lyrics wt.1 .and]
          if (curTok t4).ttype = TokType.COMMA then parseWithLoop f cs2 (t4.drop 1)
          else .ok (cs2, t4)
    else if (curTok toks).ttype = TokType.LENGTH then
      let t1 := toks.drop 1
      match parseCompOp (curTok t1) with
      | none => .error "expected comparison after LENGTH"
      | some op =>
        let t2 := t1.drop 1
        if (curTok t2).ttype = TokType.DURATION ∨ (curTok t2).ttype = TokType.NUMBER then
          let cs2 := cs ++ [Ast.WithCondition.lengthW op (curTok t2).literal]
          let t3 := t2.drop 1
          if (curTok t3).ttype = TokType.COMMA then parseWithLoop f cs2 (t3.drop 1)
          else .ok (cs2, t3)
        else .error "expected duration"
    else if (curTok toks).ttype = TokType.GUEST then
      let t1 := toks.drop 1
      if (curTok t1).ttype ≠ TokType.STRING then .error "expected string after GUEST"
      else
        let cs2 := cs ++ [Ast.WithCondition.guestW (curTok t1).literal]
        let t2 := t1.drop 1
        if (curTok t2).ttype = TokType.COMMA then parseWithLoop f cs2 (t2.drop 1)
        else .ok (cs2, t2)
    else .ok (cs, toks)

/-- parser parseWithClause. -/
def parseWithClause (toks : List Tok) : Except String (Ast.WithClause × List Tok) := do
  let (cs, t1) ← parseWithLoop (toks.length + 1) [] toks
  .ok ({ conditions := cs }, t1)

/-- parser parseSongQuery. -/
def parseSongQuery (toks : List Tok) : Except String Ast.Query := do
  let t0 := toks.drop 1
  let (withC, t1) ←
    if (curTok t0).ttype = TokType.WITH then do
      let (wc, tx) ← parseWithClause (t0.drop 1)
      pure ((some wc : Option Ast.WithClause), tx)
    else pure (none, t0)
  let (written, t2) ←
    if (curTok t1).ttype = TokType.WRITTEN then do
      let (dr, tx) ← parseDateRange (t1.drop 1)
      pure ((some dr : Option Ast.DateRange), tx)
    else pure (none, t1)
  let (m, t3) ← parseModifiers (t2.length + 1) {} t2
  let _ ← optionalSemicolon t3
  .ok (.song { withC := withC, written := written, orderBy := m.orderBy, limit := m.limit })

/-- parser parsePerformanceQuery: OF song is required. -/
def parsePerformanceQuery (toks : List Tok) : Except String Ast.Query := do
  let t0 := toks.drop 1
  if (curTok t0).ttype ≠ TokType.OF then .error "expected OF after PERFORMANCES"
  else do
    let (ref, t1) ← parseSongRef (t0.drop 1)
    let (fromR, t2) ←
      if (curTok t1).ttype = TokType.FROM then do
        let (dr, tx) ← parseDateRange (t1.drop 1)
        pure ((some dr : Option Ast.DateRange), tx)
      else pure (none, t1)
    let (withC, t3) ←
      if (curTok t2).ttype = TokType.WITH then do
        let (wc, tx) ← parseWithClause (t2.drop 1)
        pure ((some wc : Option Ast.WithClause), tx)
      else pure (none, t2)
    let (m, t4) ← parseModifiers (t3.length + 1) {} t3
    let _ ← optionalSemicolon t4
    .ok (.perf { song := ref, fromRange := fromR, withC := withC,
                 orderBy := m.orderBy, limit := m.limit })

/-- parser parseDateForSetlist: a string literal becomes a season-only Date;
M/D/YY or M/D/YYYY uses the 1900/2000 pivot; a bare number is a year (also
pivoted when below 100). -/
def parseDateForSetlist (toks : List Tok) : Except String (Ast.Date × List Tok) :=
  if (curTok toks).ttype = TokType.STRING then
    .ok ({ year := 0, season := (curTok toks).literal }, toks.drop 1)
  else if (curTok toks).ttype = TokType.NUMBER then
    let m := (atoi (curTok toks).literal).getD 0
    let t1 := toks.drop 1
    if (curTok t1).ttype = TokType.SLASH then
      let t2 := t1.drop 1
      if (curTok t2).ttype ≠ TokType.NUMBER then .error "expected day in M/D/YY"
      else
        let dy := (atoi (curTok t2).literal).getD 0
        let t3 := t2.drop 1
        if (curTok t3).ttype ≠ TokType.SLASH then .error "expected / and year in M/D/YY"
        else
          let t4 := t3.drop 1
          if (curTok t4).ttype ≠ TokType.NUMBER then .error "expected year"
          else
            let y0 := (atoi (curTok t4).literal).getD 0
            let y := if y0 < 100 then
                       (if y0 + 1900 < 1970 then y0 + 2000 else y0 + 1900)
                     else y0
            .ok ({ year := y, month := m, day := dy }, t4.drop 1)
    else
      if m ≥ 1900 ∨ m < 100 then
        let yr := if m < 100 then
                    (if m + 1900 < 1970 then m + 2000 else m + 1900)
                  else m
        .ok ({ year := yr }, t1)
      else .ok ({ year := m }, t1)
  else .error "expected date or string for SETLIST FOR"

/-- parser parseSetlistQuery: FOR date is required; no modifiers. -/
def parseSetlistQuery (toks : List Tok) : Except String Ast.Query := do
  let t0 := toks.drop 1
  if (curTok t0).ttype ≠ TokType.FOR then .error "expected FOR after SETLIST"
  else do
    let (d, t1) ← parseDateForSetlist (t0.drop 1)
    let _ ← optionalSemicolon t1
    .ok (.setlist { date := some d })

/-- parser Parse: dispatch on the first keyword. -/
def parseQuery (toks : List Tok) : Except String Ast.Query :=
  if (curTok toks).ttype = TokType.EOF then .error "empty query"
  else match (curTok toks).ttype with
  | .SHOWS => parseShowQuery toks
  | .SONGS => parseSongQuery toks
  | .PERFORMANCES => parsePerformanceQuery toks
  | .SETLIST => parseSetlistQuery toks
  | _ => .error "unexpected token, expected SHOWS, SONGS, PERFORMANCES, or SETLIST"

/-- Lex and parse a source string (parser.NewFromString + Parse). -/
def parseGDQL (src : String) : Except String Ast.Query := parseQuery (lexAll src)

/-- A resolver over no songs (no claim below ever resolves a name through it). -/
def emptyResolver : Resolver := ⟨fun _ => none, fun _ => []⟩

/-- Lex, parse and plan a source string with the given resolver. -/
def parsePlan (r : Resolver) (src : String) : Except String QueryIR :=
  match parseGDQL src with
  | .error e => .error e
  | .ok q =>
    match Plan r q with
    | .error _ => .error "plan error"
    | .ok irq => .ok irq

/-- The full compile pipeline: lex, parse, plan, generate. -/
def pipeline (r : Resolver) (src : String) : Except String SQLQuery :=
  match parsePlan r src with
  | .error e => .error e
  | .ok irq => Generate irq

/-! ## Song resolvers (internal/planner/resolver, internal/data/sqlite/db.go)

The static resolver's map is modelled as an association list; Go map
iteration order is unspecified, the list order stands in for it (the claims
below use maps without case-duplicate keys, where the order is immaterial).
The DataSource-backed resolver delegates to sqlite GetSong, whose three SQL
lookups are modelled over in-memory song and alias tables; the first matching
row in table order models SQLite's LIMIT 1 scan, and SQLite LOWER (ASCII) is
strLower. -/

/-- StaticResolver.Resolve exact stage: ByName[name]. -/
def staticResolveExact (m : List (String × Int)) (name : String) : Option Int :=
  (m.find? (fun p => p.1 = name)).map (fun p => p.2)

/-- StaticResolver.Resolve case-insensitive stage: scan for a lowered match. -/
def staticResolveCI (m : List (String × Int)) (name : String) : Option Int :=
  (m.find? (fun p => strLower p.1 = strLower name)).map (fun p => p.2)

/-- resolver StaticResolver.Resolve: exact lookup, then case-insensitive scan,
then ErrSongNotFound carrying the name (no alias table, no suffix trimming). -/
def staticResolve (m : List (String × Int)) (name : String) : Except String Int :=
  match staticResolveExact m name with
  | some id => .ok id
  | none =>
    match staticResolveCI m name with
    | some id => .ok id
    | none => .error name

/-- One songs-table row (only the columns the resolver reads). -/
structure SongRow where
  id : Int
  name : String
deriving DecidableEq, Repr

/-- One song_aliases row (the alias column is named aliasName; alias is a
reserved word in Lean). -/
structure AliasRow where
  aliasName : String
  songID : Int
deriving DecidableEq, Repr

/-- SQLite TRIM(x, '- '): remove dashes and spaces from both ends. -/
def trimDashSpace (s : String) : String :=
  ⟨((s.data.dropWhile (fun c => c = '-' ∨ c = ' ')).reverse.dropWhile
      (fun c => c = '-' ∨ c = ' ')).reverse⟩

/-- GetSong query 1: WHERE name = ? OR LOWER(name) = LOWER(?) LIMIT 1. -/
def getSongStage1 (songs : List SongRow) (name : String) : Option SongRow :=
  songs.find? (fun s => s.name = name ∨ strLower s.name = strLower name)

/-- GetSong query 2: the song_aliases join, alias exact or case-insensitive. -/
def getSongStage2 (songs : List SongRow) (aliases : List AliasRow) (name : String) :
    Option SongRow :=
  (aliases.find? (fun a => a.aliasName = name ∨ strLower a.aliasName = strLower name)).bind
    (fun a => songs.find? (fun s => s.id = a.songID))

/-- GetSong query 3: WHERE LOWER(TRIM(name, '- ')) = LOWER(TRIM(?, '- ')). -/
def getSongStage3 (songs : List SongRow) (name : String) : Option SongRow :=
  songs.find? (fun s => strLower (trimDashSpace s.name) = strLower (trimDashSpace name))

/-- sqlite GetSong: the three lookups in order; none when all miss. -/
def GetSong (songs : List SongRow) (aliases : List AliasRow) (name : String) :
    Option SongRow :=
  match getSongStage1 songs name with
  | some s => some s
  | none =>
    match getSongStage2 songs aliases name with
    | some s => some s
    | none => getSongStage3 songs name

/-- resolver DataSourceResolver.Resolve: GetSong, ErrSongNotFound on none. -/
def dsResolve (songs : List SongRow) (aliases : List AliasRow) (name : String) :
    Except String Int :=
  match GetSong songs aliases name with
  | some s => .ok s.id
  | none => .error name

/-! ## Executor row mapping (internal/executor/engine.go)

Result cells are a weakly typed union.  Go float64 cells are modelled as
rationals (no claim computes with float arithmetic; truncation toward zero
models Go int(float64) conversion). -/

inductive Value where
  | vNull
  | vInt (n : Int)
  | vInt64 (n : Int)
  | vFloat (q : Rat)
  | vStr (s : String)
  | vBytes (b : List UInt8)
deriving DecidableEq, Repr

structure ResultSet where
  columns : List String
  rows : List (List Value)
deriving DecidableEq, Repr

/-- Truncation toward zero (Go int(float64) for in-range values). -/
def truncRat (q : Rat) : Int :=
  if q.num ≥ 0 then q.num / (q.den : Int) else -((-q.num) / (q.den : Int))

/-- engine intVal: int, int64, truncated float, else zero. -/
def intVal : Value → Int
  | .vInt n => n
  | .vInt64 n => n
  | .vFloat q => truncRat q
  | _ => 0

/-- engine floatVal: float, widened int, else zero. -/
def floatVal : Value → Rat
  | .vFloat q => q
  | .vInt n => (n : Rat)
  | .vInt64 n => (n : Rat)
  | _ => 0

/-- engine strVal: native strings only; everything else is empty. -/
def strVal : Value → String
  | .vStr s => s
  | _ => ""

/-- Day count of a month, with Gregorian leap years (Go time.Parse's check). -/
def daysInMonth (y m : Int) : Int :=
  if m = 2 then (if y % 4 = 0 ∧ (y % 100 ≠ 0 ∨ y % 400 = 0) then 29 else 28)
  else if m = 4 ∨ m = 6 ∨ m = 9 ∨ m = 11 then 30 else 31

/-- Go time.Parse("2006-01-02", s): exactly four digits, dash, two digits,
dash, two digits, nothing after; month 1-12 and day valid for the month. -/
def parseYMD (s : String) : Option GTime :=
  match s.data with
  | [y1, y2, y3, y4, d1, m1, m2, d2, a1, a2] =>
    if y1.isDigit ∧ y2.isDigit ∧ y3.isDigit ∧ y4.isDigit ∧ d1 = '-' ∧
       m1.isDigit ∧ m2.isDigit ∧ d2 = '-' ∧ a1.isDigit ∧ a2.isDigit then
      let y : Int := ((y1.toNat - 48) * 1000 + (y2.toNat - 48) * 100 +
                      (y3.toNat - 48) * 10 + (y4.toNat - 48) : Nat)
      let mo : Int := ((m1.toNat - 48) * 10 + (m2.toNat - 48) : Nat)
      let dy : Int := ((a1.toNat - 48) * 10 + (a2.toNat - 48) : Nat)
      if 1 ≤ mo ∧ mo ≤ 12 ∧ 1 ≤ dy ∧ dy ≤ daysInMonth y mo then
        some (mkTime y mo dy 0 0 0)
      else none
    else none
  | _ => none

/-- engine timeVal: dates parse from YYYY-MM-DD strings; any failure (or a
non-string cell) degrades silently to the zero time. -/
def timeVal : Value → GTime
  | .vStr s =>
    match parseYMD s with
    | some t => t
    | none => zeroTime
  | _ => zeroTime

structure ShowRec where
  id : Int
  date : GTime
  venueID : Int
  venue : String
  city : String
  state : String
  notes : String
  rating : Rat
deriving DecidableEq, Repr

structure SongRec where
  id : Int
  name : String
  shortName : String
  writers : String
  firstPlayed : GTime
  lastPlayed : GTime
  timesPlayed : Int
deriving DecidableEq, Repr

structure PerformanceRec where
  id : Int
  showID : Int
  songID : Int
  setNumber : Int
  position : Int
  segueType : String
  lengthSeconds : Int
  songName : String
deriving DecidableEq, Repr

/-- The field extraction of mapRowsToShows for one (long-enough) row. -/
def showFromRow (row : List Value) : ShowRec :=
  { id := intVal (row.getD 0 .vNull), date := timeVal (row.getD 1 .vNull),
    venueID := intVal (row.getD 2 .vNull), venue := strVal (row.getD 3 .vNull),
    city := strVal (row.getD 4 .vNull), state := strVal (row.getD 5 .vNull),
    notes := strVal (row.getD 6 .vNull), rating := floatVal (row.getD 7 .vNull) }

/-- The field extraction of mapRowsToSongs for one row. -/
def songFromRow (row : List Value) : SongRec :=
  { id := intVal (row.getD 0 .vNull), name := strVal (row.getD 1 .vNull),
    shortName := strVal (row.getD 2 .vNull), writers := strVal (row.getD 3 .vNull),
    firstPlayed := timeVal (row.getD 4 .vNull), lastPlayed := timeVal (row.getD 5 .vNull),
    timesPlayed := intVal (row.getD 6 .vNull) }

/-- The field extraction of mapRowsToPerformances for one row (the optional
eighth column is the song name). -/
def perfFromRow (row : List Value) : PerformanceRec :=
  { id := intVal (row.getD 0 .vNull), showID := intVal (row.getD 1 .vNull),
    songID := intVal (row.getD 2 .vNull), setNumber := intVal (row.getD 3 .vNull),
    position := intVal (row.getD 4 .vNull), segueType := strVal (row.getD 5 .vNull),
    lengthSeconds := intVal (row.getD 6 .vNull),
    songName := if 8 ≤ row.length then strVal (row.getD 7 .vNull) else "" }

/-- The row loop of mapRowsToShows: rows with fewer than 8 columns are
skipped with continue. -/
def mapShowsRows : List (List Value) → List ShowRec
  | [] => []
  | row :: rest =>
    if row.length < 8 then mapShowsRows rest
    else showFromRow row :: mapShowsRows rest

/-- engine mapRowsToShows (the Go function returns a nil error on every path). -/
def mapRowsToShows (rs : ResultSet) : Except String (List ShowRec) :=
  .ok (mapShowsRows rs.rows)

/-- The row loop of mapRowsToSongs: rows with fewer than 7 columns skipped. -/
def mapSongsRows : List (List Value) → List SongRec
  | [] => []
  | row :: rest =>
    if row.length < 7 then mapSongsRows rest
    else songFromRow row :: mapSongsRows rest

/-- engine mapRowsToSongs. -/
def mapRowsToSongs (rs : ResultSet) : Except String (List SongRec) :=
  .ok (mapSongsRows rs.rows)

/-- The row loop of mapRowsToPerformances: rows with fewer than 7 columns
skipped. -/
def mapPerfRows : List (List Value) → List PerformanceRec
  | [] => []
  | row :: rest =>
    if row.length < 7 then mapPerfRows rest
    else perfFromRow row :: mapPerfRows rest

/-- engine mapRowsToPerformances. -/
def mapRowsToPerformances (rs : ResultSet) : Except String (List PerformanceRec) :=
  .ok (mapPerfRows rs.rows)

/-! ## Helper lemmas: character and placeholder counting -/

theorem toNat_ofNat_valid (n : Nat) (h : n.isValidChar) : (Char.ofNat n).toNat = n := by
  unfold Char.ofNat
  rw [dif_pos h]
  simp [Char.ofNatAux, Char.toNat, UInt32.toNat]

theorem lowerCh_eq_qmark (c : Char) : (lowerCh c = '?') ↔ (c = '?') := by
  unfold lowerCh
  split
  case isTrue h =>
    obtain ⟨h1, h2⟩ := h
    have hge : 65 ≤ c.toNat := by
      have := Char.le_def.mp h1
      simpa [Char.toNat] using this
    have hle : c.toNat ≤ 90 := by
      have := Char.le_def.mp h2
      simpa [Char.toNat] using this
    have hq : ('?').toNat = 63 := by decide
    constructor
    · intro he
      exfalso
      have hv : (Char.ofNat (c.toNat + 32)).toNat = '?'.toNat := by rw [he]
      rw [toNat_ofNat_valid _ (by left; change c.toNat + 32 < 55296; omega)] at hv
      omega
    · intro he
      subst he
      exfalso
      omega
  case isFalse h => exact Iff.rfl

theorem countQ_strLower (s : String) : countQ (strLower s) = countQ s := by
  show (s.data.map lowerCh).count '?' = s.data.count '?'
  induction s.data with
  | nil => rfl
  | cons c t ih =>
    simp only [List.map_cons, List.count_cons, ih]
    congr 1
    have h : (lowerCh c == '?') = (c == '?') := by
      by_cases hc : c = '?'
      · subst hc
        have hl : lowerCh '?' = '?' := by decide
        simp [hl]
      · have hne : lowerCh c ≠ '?' := fun hx => hc ((lowerCh_eq_qmark c).mp hx)
        simp [hc, hne]
    rw [h]

theorem countQ_append (a b : String) : countQ (a ++ b) = countQ a + countQ b := by
  simp [countQ]

theorem countQ_concatAll (l : List String) : countQ (concatAll l) = (l.map countQ).sum := by
  induction l with
  | nil => rfl
  | cons s r ih => simp [concatAll, countQ_append, ih]

theorem countQ_joinSep (sep : String) (l : List String) (hs : countQ sep = 0) :
    countQ (joinSep sep l) = (l.map countQ).sum := by
  induction l with
  | nil => rfl
  | cons s r ih =>
    cases r with
    | nil => simp [joinSep]
    | cons s2 r2 =>
      show countQ (s ++ sep ++ joinSep sep (s2 :: r2)) = _
      rw [countQ_append, countQ_append, hs, ih]
      simp [Nat.add_assoc]

theorem digitCh_ne_q (n : Nat) : digitCh n ≠ '?' := by
  intro he
  have hm : n % 10 < 10 := Nat.mod_lt _ (by omega)
  have hv : (digitCh n).toNat = '?'.toNat := by rw [he]
  unfold digitCh at hv
  rw [toNat_ofNat_valid _ (by left; change 48 + n % 10 < 55296; omega)] at hv
  have hq : ('?').toNat = 63 := by decide
  omega

theorem natDecAux_count (f n : Nat) : (natDecAux f n).count '?' = 0 := by
  induction f generalizing n with
  | zero => rfl
  | succ f ih =>
    unfold natDecAux
    split
    · simp [List.count_cons, digitCh_ne_q n]
    · simp [List.count_append, ih, List.count_cons, digitCh_ne_q (n % 10)]

theorem countQ_natDec (n : Nat) : countQ (natDec n) = 0 := natDecAux_count _ _

theorem countQ_pad2 (n : Int) : countQ (pad2 n) = 0 := by
  unfold pad2 countQ
  have h1 : ((⟨List.replicate (2 - (natDec n.toNat).data.length) '0'⟩ : String) ++
      natDec n.toNat).data
      = List.replicate (2 - (natDec n.toNat).data.length) '0' ++ (natDec n.toNat).data := rfl
  rw [h1, List.count_append]
  have := countQ_natDec n.toNat
  simp [countQ] at this
  simp [this, List.count_replicate]

theorem countQ_pad4 (n : Int) : countQ (pad4 n) = 0 := by
  unfold pad4 countQ
  have h1 : ((⟨List.replicate (4 - (natDec n.toNat).data.length) '0'⟩ : String) ++
      natDec n.toNat).data
      = List.replicate (4 - (natDec n.toNat).data.length) '0' ++ (natDec n.toNat).data := rfl
  rw [h1, List.count_append]
  have := countQ_natDec n.toNat
  simp [countQ] at this
  simp [this, List.count_replicate]

theorem sum_countQ_const {α : Type} (f : α → String) (k : Nat) :
    ∀ l : List α, (∀ x ∈ l, countQ (f x) = k) → ((l.map f).map countQ).sum = l.length * k
  | [], _ => by simp
  | x :: r, h => by
    simp only [List.map_cons, List.sum_cons, List.length_cons]
    rw [h x (by simp), sum_countQ_const f k r (fun y hy => h y (by simp [hy]))]
    ring

theorem condPartShows_count (c : ConditionIR) (p : String) (a : List Arg)
    (h : condPartShows c = some (p, a)) : countQ p = a.length := by
  cases c with
  | position set op songID =>
    cases op <;>
      (simp [condPartShows, positionCondition] at h
       obtain ⟨hp, ha⟩ := h
       subst hp
       subst ha
       simp only [List.length_cons, List.length_nil]
       decide)
  | played songID =>
    simp [condPartShows] at h
    obtain ⟨hp, ha⟩ := h
    subst hp
    subst ha
    simp only [List.length_cons, List.length_nil]
    decide
  | guest name =>
    simp [condPartShows] at h
    obtain ⟨hp, ha⟩ := h
    subst hp
    subst ha
    simp only [List.length_cons, List.length_nil]
    decide
  | lyrics words op => simp [condPartShows] at h
  | length songID op sec => simp [condPartShows] at h

theorem whereCondsShows_count (l : List ConditionIR) :
    (((whereCondsShows l).1.map countQ).sum = (whereCondsShows l).2.length) := by
  induction l with
  | nil => rfl
  | cons c r ih =>
    unfold whereCondsShows
    cases hc : condPartShows c with
    | none => simpa using ih
    | some pa =>
      obtain ⟨p, a⟩ := pa
      have hcount := condPartShows_count c p a hc
      simp [hcount, ih]

theorem condPartSegue_count (c : ConditionIR) (p : String) (a : List Arg)
    (h : condPartSegue c = some (p, a)) : countQ p = a.length := by
  cases c with
  | position set op songID =>
    cases op <;>
      (simp [condPartSegue] at h
       obtain ⟨hp, ha⟩ := h
       subst hp
       subst ha
       simp only [List.length_cons, List.length_nil]
       decide)
  | played songID =>
    simp [condPartSegue] at h
    obtain ⟨hp, ha⟩ := h
    subst hp
    subst ha
    simp only [List.length_cons, List.length_nil]
    decide
  | guest name =>
    simp [condPartSegue] at h
    obtain ⟨hp, ha⟩ := h
    subst hp
    subst ha
    simp only [List.length_cons, List.length_nil]
    decide
  | lyrics words op => simp [condPartSegue] at h
  | length songID op sec => simp [condPartSegue] at h

theorem whereCondsSegue_count (l : List ConditionIR) :
    (((whereCondsSegue l).1.map countQ).sum = (whereCondsSegue l).2.length) := by
  induction l with
  | nil => rfl
  | cons c r ih =>
    unfold whereCondsSegue
    cases hc : condPartSegue c with
    | none => simpa using ih
    | some pa =>
      obtain ⟨p, a⟩ := pa
      have hcount := condPartSegue_count c p a hc
      simp [hcount, ih]

theorem whereCondsSegue_nil (l : List ConditionIR)
    (h : (whereCondsSegue l).1 = []) : (whereCondsSegue l).2 = [] := by
  induction l with
  | nil => rfl
  | cons c r ih =>
    unfold whereCondsSegue at h ⊢
    cases hc : condPartSegue c with
    | none =>
      rw [hc] at h
      exact ih h
    | some pa =>
      rw [hc] at h
      simp at h

theorem countQ_orderBySQL (q : QueryIR) (pfx : String) (hp : countQ pfx = 0)
    (hob : ∀ ob, q.orderBy = some ob → countQ ob.field = 0) :
    countQ (orderBySQL q pfx) = 0 := by
  cases hoq : q.orderBy with
  | none => simp [orderBySQL, hoq]; rfl
  | some ob =>
    have hf := hob ob hoq
    have hlow2 : countQ (strLower ob.field) = 0 := by
      rw [countQ_strLower]
      exact hf
    simp only [orderBySQL, hoq]
    split_ifs <;> simp_all [countQ_append, hp] <;> decide

theorem countQ_chainFrag (i : Nat) : countQ (segueChainFrag i) = 0 := by
  unfold segueChainFrag pA
  split
  · decide
  · simp [countQ_append, countQ_natDec]
    decide

theorem countQ_songFrag (i : Nat) : countQ (segueSongFrag i) = 1 := by
  unfold segueSongFrag
  simp [countQ_append, countQ_natDec]
  decide

theorem countQ_segFrag (i : Nat) : countQ (segueTypeFrag i) = 1 := by
  unfold segueTypeFrag
  simp [countQ_append, countQ_natDec]
  decide

theorem padOps_take_length (ops : List SegueOp) (m : Nat) :
    ((padOps ops m).take m).length = m := by
  simp [padOps, List.length_take]
  omega

theorem whereShows_count (q : QueryIR) :
    countQ (whereShows q).1 = (whereShows q).2.length := by
  unfold whereShows
  have hconds := whereCondsShows_count q.conditions
  cases q.dateRange with
  | none =>
    simp only
    rw [countQ_joinSep _ _ (by decide)]
    simpa using hconds
  | some rg =>
    simp only
    rw [countQ_joinSep _ _ (by decide)]
    have hd : countQ "s.date >= ? AND s.date <= ?" = 2 := by decide
    simp [hd, hconds]
    omega

theorem segue_count (q : QueryIR) (r : SQLQuery)
    (h : BuildSegueShowsSQL q = .ok r) : countQ r.SQL = r.Args.length := by
  have hjoin : ∀ l, countQ (joinSep " AND " l) = (l.map countQ).sum :=
    fun l => countQ_joinSep _ l (by decide)
  have hdir : ∀ b : Bool, countQ (if b then "DESC" else "ASC") = 0 := by
    intro b
    cases b <;> decide
  have hL1 : countQ "SELECT DISTINCT s.id, s.date, s.venue_id, v.name AS venue, v.city, v.state, s.notes, s.rating FROM " = 0 := by decide
  have hL2 : countQ " JOIN shows s ON p1.show_id = s.id LEFT JOIN venues v ON s.venue_id = v.id" = 0 := by decide
  have hL3 : countQ " WHERE " = 0 := by decide
  have hL4 : countQ " LIMIT ?" = 1 := by decide
  have hL5 : countQ "s.date >= ? AND s.date <= ?" = 2 := by decide
  have hL6 : countQ " ORDER BY s.date " = 0 := by decide
  have hL0 : countQ "" = 0 := by decide
  unfold BuildSegueShowsSQL at h
  cases hc : q.segueChain with
  | none =>
    rw [hc] at h
    simp at h
  | some chain =>
    rw [hc] at h
    dsimp only at h
    by_cases hn : chain.songIDs.length < 2
    · rw [if_pos hn] at h
      simp at h
    · rw [if_neg hn] at h
      have hchain := sum_countQ_const segueChainFrag 0 (List.range chain.songIDs.length)
        (fun i _ => countQ_chainFrag i)
      have hsong := sum_countQ_const segueSongFrag 1 (List.range chain.songIDs.length)
        (fun i _ => countQ_songFrag i)
      have hseg := sum_countQ_const segueTypeFrag 1 (List.range (chain.songIDs.length - 1))
        (fun i _ => countQ_segFrag i)
      have hpad : (padOps chain.operators (chain.songIDs.length - 1)).length =
          chain.operators.length + ((chain.songIDs.length - 1) - chain.operators.length) := by
        simp [padOps]
      simp only [List.map_map, List.length_range, Nat.mul_one, Nat.mul_zero] at hchain hsong hseg
      have hcw := whereCondsSegue_count q.conditions
      rcases hcp : whereCondsSegue q.conditions with ⟨ps, cargs⟩
      rw [hcp] at h hcw
      simp only at hcw
      cases hdr : q.dateRange with
      | none =>
        rw [hdr] at h
        simp only [List.nil_append] at h
        cases hps : ps with
        | nil =>
          have hcnil : cargs = [] := by
            have := whereCondsSegue_nil q.conditions (by rw [hcp, hps])
            rw [hcp] at this
            exact this
          subst hps
          subst hcnil
          cases hord : q.orderBy with
          | none =>
            rw [hord] at h
            cases hlim : q.limit with
            | none =>
              rw [hlim] at h
              simp only [Except.ok.injEq] at h
              subst h
              simp [countQ_append, countQ_concatAll, hchain, hsong, hseg, hpad,
                    hL1, hL2, hL0]
              omega
            | some k =>
              rw [hlim] at h
              simp only [Except.ok.injEq] at h
              subst h
              simp [countQ_append, countQ_concatAll, hchain, hsong, hseg, hpad,
                    hL1, hL2, hL4, hL0]
              omega
          | some ob =>
            rw [hord] at h
            cases hlim : q.limit with
            | none =>
              rw [hlim] at h
              simp only [Except.ok.injEq] at h
              subst h
              simp [countQ_append, countQ_concatAll, hchain, hsong, hseg, hpad,
                    hL1, hL2, hL6, hL0, hdir]
              omega
            | some k =>
              rw [hlim] at h
              simp only [Except.ok.injEq] at h
              subst h
              simp [countQ_append, countQ_concatAll, hchain, hsong, hseg, hpad,
                    hL1, hL2, hL4, hL6, hL0, hdir]
              omega
        | cons p0 ps2 =>
          subst hps
          simp only [List.map_cons, List.sum_cons] at hcw
          cases hord : q.orderBy with
          | none =>
            rw [hord] at h
            cases hlim : q.limit with
            | none =>
              rw [hlim] at h
              simp only [Except.ok.injEq] at h
              subst h
              simp [countQ_append, countQ_concatAll, hchain, hsong, hseg, hpad,
                    hL1, hL2, hL3, hL0, hjoin, hcw]
              omega
            | some k =>
              rw [hlim] at h
              simp only [Except.ok.injEq] at h
              subst h
              simp [countQ_append, countQ_concatAll, hchain, hsong, hseg, hpad,
                    hL1, hL2, hL3, hL4, hL0, hjoin, hcw]
              omega
          | some ob =>
            rw [hord] at h
            cases hlim : q.limit with
            | none =>
              rw [hlim] at h
              simp only [Except.ok.injEq] at h
              subst h
              simp [countQ_append, countQ_concatAll, hchain, hsong, hseg, hpad,
                    hL1, hL2, hL3, hL6, hL0, hjoin, hcw, hdir]
              omega
            | some k =>
              rw [hlim] at h
              simp only [Except.ok.injEq] at h
              subst h
              simp [countQ_append, countQ_concatAll, hchain, hsong, hseg, hpad,
                    hL1, hL2, hL3, hL4, hL6, hL0, hjoin, hcw, hdir]
              omega
      | some rg =>
        rw [hdr] at h
        simp only [List.cons_append] at h
        cases hord : q.orderBy with
        | none =>
          rw [hord] at h
          cases hlim : q.limit with
          | none =>
            rw [hlim] at h
            simp only [Except.ok.injEq] at h
            subst h
            simp [countQ_append, countQ_concatAll, hchain, hsong, hseg, hpad,
                  hL1, hL2, hL3, hL5, hL0, hjoin, hcw]
            omega
          | some k =>
            rw [hlim] at h
            simp only [Except.ok.injEq] at h
            subst h
            simp [countQ_append, countQ_concatAll, hchain, hsong, hseg, hpad,
                  hL1, hL2, hL3, hL4, hL5, hL0, hjoin, hcw]
            omega
        | some ob =>
          rw [hord] at h
          cases hlim : q.limit with
          | none =>
            rw [hlim] at h
            simp only [Except.ok.injEq] at h
            subst h
            simp [countQ_append, countQ_concatAll, hchain, hsong, hseg, hpad,
                  hL1, hL2, hL3, hL5, hL6, hL0, hjoin, hcw, hdir]
            omega
          | some k =>
            rw [hlim] at h
            simp only [Except.ok.injEq] at h
            subst h
            simp [countQ_append, countQ_concatAll, hchain, hsong, hseg, hpad,
                  hL1, hL2, hL3, hL4, hL5, hL6, hL0, hjoin, hcw, hdir]
            omega

theorem genShows_count (q : QueryIR) (r : SQLQuery)
    (hob : ∀ ob, q.orderBy = some ob → countQ ob.field = 0)
    (h : genShows q = .ok r) : countQ r.SQL = r.Args.length := by
  unfold genShows at h
  split at h
  · exact segue_count q r h
  · dsimp only at h
    have hw := whereShows_count q
    have hordC := countQ_orderBySQL q "s" (by decide) hob
    have hbase : countQ showsBase = 0 := by decide
    have hsp : countQ " WHERE " = 0 := by decide
    have hlim4 : countQ " LIMIT ?" = 1 := by decide
    have hite : countQ (if orderBySQL q "s" = "" then "" else " " ++ orderBySQL q "s") = 0 := by
      split
      · decide
      · rw [countQ_append, hordC]
        decide
    rcases hwp : whereShows q with ⟨wstr, wargs⟩
    rw [hwp] at h hw
    simp only at h hw
    by_cases hwe : wstr = ""
    · rw [if_pos hwe, if_pos hwe] at h
      cases hlim : q.limit with
      | none =>
        rw [hlim] at h
        simp only [Except.ok.injEq] at h
        subst h
        simp [countQ_append, hbase, hite]
      | some k =>
        rw [hlim] at h
        simp only [Except.ok.injEq] at h
        subst h
        simp [countQ_append, hbase, hite, hlim4]
    · rw [if_neg hwe, if_neg hwe] at h
      cases hlim : q.limit with
      | none =>
        rw [hlim] at h
        simp only [Except.ok.injEq] at h
        subst h
        simp [countQ_append, hbase, hite, hsp, hw]
      | some k =>
        rw [hlim] at h
        simp only [Except.ok.injEq] at h
        subst h
        simp [countQ_append, hbase, hite, hsp, hlim4, hw]

theorem songsCondParts_count (l : List ConditionIR) :
    (((songsCondParts l).1.map countQ).sum = (songsCondParts l).2.length) := by
  induction l with
  | nil => rfl
  | cons c r ih =>
    cases c with
    | lyrics words op =>
      unfold songsCondParts
      by_cases hw : words.length = 0
      · rw [if_pos hw]
        exact ih
      · rw [if_neg hw]
        have hop : countQ (if op = LogicOp.or then " OR " else " AND ") = 0 := by
          split <;> decide
        have hlikes := sum_countQ_const (fun _ => "l.lyrics LIKE ?") 1 words
          (fun x _ => by show countQ "l.lyrics LIKE ?" = 1; decide)
        have hopen : countQ "EXISTS (SELECT 1 FROM lyrics l WHERE l.song_id = songs.id AND (" = 0 := by decide
        have hclose : countQ "))" = 0 := by decide
        simp only [List.map_cons, List.sum_cons, List.length_append, List.length_map,
                   countQ_append, countQ_joinSep _ _ hop, hlikes, hopen, hclose, ih]
        omega
    | position set op songID => exact ih
    | played songID => exact ih
    | guest name => exact ih
    | length songID op sec => exact ih

theorem songsCondParts_nil (l : List ConditionIR)
    (h : (songsCondParts l).1 = []) : (songsCondParts l).2 = [] := by
  induction l with
  | nil => rfl
  | cons c r ih =>
    cases c with
    | lyrics words op =>
      unfold songsCondParts at h ⊢
      by_cases hw : words.length = 0
      · rw [if_pos hw] at h ⊢
        exact ih h
      · rw [if_neg hw] at h
        simp at h
    | position set op songID => exact ih h
    | played songID => exact ih h
    | guest name => exact ih h
    | length songID op sec => exact ih h

theorem genSongs_count (q : QueryIR) (r : SQLQuery)
    (hob : ∀ ob, q.orderBy = some ob → countQ ob.field = 0)
    (h : genSongs q = .ok r) : countQ r.SQL = r.Args.length := by
  unfold genSongs at h
  dsimp only at h
  have hic := songsCondParts_count q.conditions
  have hordC := countQ_orderBySQL q "songs" (by decide) hob
  have hbase : countQ "SELECT id, name, short_name, writers, first_played, last_played, times_played FROM songs" = 0 := by decide
  have hsp : countQ " WHERE " = 0 := by decide
  have hlim4 : countQ " LIMIT ?" = 1 := by decide
  have hdlit : countQ "first_played >= ? AND last_played <= ?" = 2 := by decide
  have hjoin : ∀ l, countQ (joinSep " AND " l) = (l.map countQ).sum :=
    fun l => countQ_joinSep _ l (by decide)
  have hite : countQ (if orderBySQL q "songs" = "" then "" else " " ++ orderBySQL q "songs") = 0 := by
    split
    · decide
    · rw [countQ_append, hordC]
      decide
  rcases hcp : songsCondParts q.conditions with ⟨ps, cargs⟩
  rw [hcp] at h hic
  simp only at h hic
  cases hdr : q.dateRange with
  | none =>
    rw [hdr] at h
    simp only [List.append_nil] at h
    cases hps : ps with
    | nil =>
      have hcnil : cargs = [] := by
        have := songsCondParts_nil q.conditions (by rw [hcp, hps])
        rw [hcp] at this
        exact this
      subst hps
      subst hcnil
      cases hlim : q.limit with
      | none =>
        rw [hlim] at h
        simp only [Except.ok.injEq] at h
        subst h
        simp [countQ_append, hbase, hite]
      | some k =>
        rw [hlim] at h
        simp only [Except.ok.injEq] at h
        subst h
        simp [countQ_append, hbase, hite, hlim4]
    | cons p0 ps2 =>
      subst hps
      simp only [List.map_cons, List.sum_cons] at hic
      cases hlim : q.limit with
      | none =>
        rw [hlim] at h
        simp only [Except.ok.injEq] at h
        subst h
        simp [countQ_append, hbase, hite, hsp, hjoin, hic]
      | some k =>
        rw [hlim] at h
        simp only [Except.ok.injEq] at h
        subst h
        simp [countQ_append, hbase, hite, hsp, hjoin, hlim4, hic]
  | some rg =>
    rw [hdr] at h
    cases hps : ps with
    | nil =>
      have hcnil : cargs = [] := by
        have := songsCondParts_nil q.conditions (by rw [hcp, hps])
        rw [hcp] at this
        exact this
      subst hps
      subst hcnil
      simp only [List.nil_append] at h
      cases hlim : q.limit with
      | none =>
        rw [hlim] at h
        simp only [Except.ok.injEq] at h
        subst h
        simp [countQ_append, hbase, hite, hsp, hjoin, hdlit]
      | some k =>
        rw [hlim] at h
        simp only [Except.ok.injEq] at h
        subst h
        simp [countQ_append, hbase, hite, hsp, hjoin, hdlit, hlim4]
    | cons p0 ps2 =>
      subst hps
      simp only [List.map_cons, List.sum_cons] at hic
      simp only [List.cons_append] at h
      cases hlim : q.limit with
      | none =>
        rw [hlim] at h
        simp only [Except.ok.injEq] at h
        subst h
        simp [countQ_append, hbase, hite, hsp, hjoin, hdlit, hic]
        omega
      | some k =>
        rw [hlim] at h
        simp only [Except.ok.injEq] at h
        subst h
        simp [countQ_append, hbase, hite, hsp, hjoin, hdlit, hlim4, hic]
        omega

theorem perfCondSQL_count (l : List ConditionIR) :
    countQ (perfCondSQL l).1 = (perfCondSQL l).2.length := by
  induction l with
  | nil => rfl
  | cons c r ih =>
    cases c with
    | length songID op sec =>
      unfold perfCondSQL
      have hcop : countQ (compOpSQL op) = 0 := by cases op <;> decide
      have h1 : countQ " AND p.length_seconds " = 0 := by decide
      have h2 : countQ " ?" = 1 := by decide
      simp only [countQ_append, hcop, h1, h2, ih, List.length_cons]
      omega
    | position set op songID => exact ih
    | played songID => exact ih
    | guest name => exact ih
    | lyrics words op => exact ih

theorem genPerformances_count (q : QueryIR) (r : SQLQuery)
    (hob : ∀ ob, q.orderBy = some ob → countQ ob.field = 0)
    (h : genPerformances q = .ok r) : countQ r.SQL = r.Args.length := by
  unfold genPerformances at h
  cases hs : q.songID with
  | none =>
    rw [hs] at h
    simp at h
  | some sid =>
    rw [hs] at h
    dsimp only at h
    have hpc := perfCondSQL_count q.conditions
    have hordC := countQ_orderBySQL q "p" (by decide) hob
    have hbase : countQ "SELECT p.id, p.show_id, p.song_id, p.set_number, p.position, p.segue_type, p.length_seconds FROM performances p JOIN shows s ON p.show_id = s.id WHERE p.song_id = ?" = 1 := by decide
    have hdlit : countQ " AND s.date >= ? AND s.date <= ?" = 2 := by decide
    have hlim4 : countQ " LIMIT ?" = 1 := by decide
    have hite : countQ (if orderBySQL q "p" = "" then "" else " " ++ orderBySQL q "p") = 0 := by
      split
      · decide
      · rw [countQ_append, hordC]
        decide
    cases hdr : q.dateRange with
    | none =>
      rw [hdr] at h
      cases hlim : q.limit with
      | none =>
        rw [hlim] at h
        simp only [Except.ok.injEq] at h
        subst h
        simp [countQ_append, hbase, hite, hpc]
        omega
      | some k =>
        rw [hlim] at h
        simp only [Except.ok.injEq] at h
        subst h
        simp [countQ_append, hbase, hite, hlim4, hpc]
        omega
    | some rg =>
      rw [hdr] at h
      have hfused : countQ "SELECT p.id, p.show_id, p.song_id, p.set_number, p.position, p.segue_type, p.length_seconds FROM performances p JOIN shows s ON p.show_id = s.id WHERE p.song_id = ? AND s.date >= ? AND s.date <= ?" = 3 := by decide
      cases hlim : q.limit with
      | none =>
        rw [hlim] at h
        simp only [Except.ok.injEq] at h
        subst h
        simp [countQ_append, hbase, hite, hdlit, hpc, hfused]
        omega
      | some k =>
        rw [hlim] at h
        simp only [Except.ok.injEq] at h
        subst h
        simp [countQ_append, hbase, hite, hdlit, hlim4, hpc, hfused]
        omega

theorem genSetlist_count (q : QueryIR) (r : SQLQuery)
    (h : genSetlist q = .ok r) : countQ r.SQL = r.Args.length := by
  unfold genSetlist at h
  cases hs : q.singleDate with
  | none =>
    rw [hs] at h
    simp at h
  | some d =>
    rw [hs] at h
    simp only [Except.ok.injEq] at h
    subst h
    dsimp only
    simp only [List.length_cons, List.length_nil]
    decide

/-! ## Claim C3: placeholder count vs argument count -/

/-- C3 counterexample: the claim "for every QueryIR on which SQL generation
succeeds, the number of question-mark placeholders in the emitted SQL equals
the length of the arguments vector" is false: a shows IR whose ORDER BY field
is the string "?" (reachable from the source SHOWS ORDER BY "?") generates
successfully with one question mark in the SQL text and an empty argument
vector. -/
theorem C3_counterexample :
    parsePlan emptyResolver "SHOWS ORDER BY \"?\"" =
      .ok { qtype := QueryTypeShows, orderBy := some ⟨"?", false⟩ } ∧
    Generate { qtype := QueryTypeShows, orderBy := some ⟨"?", false⟩ } =
      .ok ⟨"SELECT s.id, s.date, s.venue_id, v.name AS venue, v.city, v.state, s.notes, s.rating FROM shows s LEFT JOIN venues v ON s.venue_id = v.id ORDER BY s.? ASC", []⟩ ∧
    countQ "SELECT s.id, s.date, s.venue_id, v.name AS venue, v.city, v.state, s.notes, s.rating FROM shows s LEFT JOIN venues v ON s.venue_id = v.id ORDER BY s.? ASC" = 1 ∧
    ([] : List Arg).length = 0 :=
  ⟨rfl, rfl, by decide, rfl⟩

/-- C3 (amended): for every QueryIR on which SQL generation succeeds and whose
ORDER BY field (when present) contains no question-mark character, the number
of question-mark placeholders in the emitted SQL equals the length of the
returned arguments vector; this covers all four query types, with and without
a segue chain. -/
theorem C3_amended_placeholder_count (q : QueryIR) (r : SQLQuery)
    (h : Generate q = .ok r)
    (hob : ∀ ob, q.orderBy = some ob → countQ ob.field = 0) :
    countQ r.SQL = r.Args.length := by
  unfold Generate at h
  split_ifs at h
  · exact genShows_count q r hob h
  · exact genSongs_count q r hob h
  · exact genPerformances_count q r hob h
  · exact genSetlist_count q r h

set_option maxRecDepth 8000 in
/-- C3 witness: the amended theorem applied to a concrete shows query with a
date range, a guest condition, an ORDER BY and a limit. -/
theorem C3_amended_placeholder_count_witness :
    Generate { qtype := 0, dateRange := some (ResolvedDateRange.mk (mkTime 1977 1 1 0 0 0) (mkTime 1977 12 31 23 59 59)), conditions := [ConditionIR.guest "Branford"], orderBy := some (OrderByIR.mk "date" false), limit := some 5 } =
      .ok ⟨"SELECT s.id, s.date, s.venue_id, v.name AS venue, v.city, v.state, s.notes, s.rating FROM shows s LEFT JOIN venues v ON s.venue_id = v.id WHERE s.date >= ? AND s.date <= ? AND EXISTS (SELECT 1 FROM performances p WHERE p.show_id = s.id AND p.guest IS NOT NULL AND p.guest != '' AND (p.guest = ? OR p.guest LIKE ?)) ORDER BY s.date ASC LIMIT ?",
           [Arg.s "1977-01-01", Arg.s "1977-12-31", Arg.s "Branford", Arg.s "%Branford%", Arg.i 5]⟩ ∧
    countQ "SELECT s.id, s.date, s.venue_id, v.name AS venue, v.city, v.state, s.notes, s.rating FROM shows s LEFT JOIN venues v ON s.venue_id = v.id WHERE s.date >= ? AND s.date <= ? AND EXISTS (SELECT 1 FROM performances p WHERE p.show_id = s.id AND p.guest IS NOT NULL AND p.guest != '' AND (p.guest = ? OR p.guest LIKE ?)) ORDER BY s.date ASC LIMIT ?" =
      ([Arg.s "1977-01-01", Arg.s "1977-12-31", Arg.s "Branford", Arg.s "%Branford%", Arg.i 5] : List Arg).length :=
  ⟨rfl,
   C3_amended_placeholder_count
     { qtype := 0, dateRange := some (ResolvedDateRange.mk (mkTime 1977 1 1 0 0 0) (mkTime 1977 12 31 23 59 59)), conditions := [ConditionIR.guest "Branford"], orderBy := some (OrderByIR.mk "date" false), limit := some 5 }
     ⟨"SELECT s.id, s.date, s.venue_id, v.name AS venue, v.city, v.state, s.notes, s.rating FROM shows s LEFT JOIN venues v ON s.venue_id = v.id WHERE s.date >= ? AND s.date <= ? AND EXISTS (SELECT 1 FROM performances p WHERE p.show_id = s.id AND p.guest IS NOT NULL AND p.guest != '' AND (p.guest = ? OR p.guest LIKE ?)) ORDER BY s.date ASC LIMIT ?",
      [Arg.s "1977-01-01", Arg.s "1977-12-31", Arg.s "Branford", Arg.s "%Branford%", Arg.i 5]⟩
     rfl
     (by intro ob hh; cases hh; decide)⟩

/-! ## Claim C7: structural generation errors -/

/-- C7 counterexample: a shows IR carrying a segue chain with fewer than 2
songs does NOT make Generate return a generation error: the chain is silently
ignored and the plain (non-segue) shows SQL is emitted. -/
theorem C7_counterexample :
    Generate { qtype := QueryTypeShows, segueChain := some ⟨[7], []⟩ } =
      .ok ⟨"SELECT s.id, s.date, s.venue_id, v.name AS venue, v.city, v.state, s.notes, s.rating FROM shows s LEFT JOIN venues v ON s.venue_id = v.id", []⟩ :=
  rfl

/-- C7 (amended): Generate reports a generation error for a setlist IR with no
single date and for an unknown query type; a shows IR whose segue chain has
fewer than 2 songs is not an error: Generate behaves exactly as if the chain
were absent (only a direct call to BuildSegueShowsSQL rejects such a chain). -/
theorem C7_amended_generation_errors :
    (∀ q : QueryIR, q.qtype = QueryTypeSetlist → q.singleDate = none →
        Generate q = .error "setlist query requires a date") ∧
    (∀ q : QueryIR, q.qtype ≠ QueryTypeShows → q.qtype ≠ QueryTypeSongs →
        q.qtype ≠ QueryTypePerformances → q.qtype ≠ QueryTypeSetlist →
        Generate q = .error "unknown query type") ∧
    (∀ (q : QueryIR) (c : SegueChainIR), q.qtype = QueryTypeShows →
        q.segueChain = some c → c.songIDs.length < 2 →
        Generate q = Generate { q with segueChain := none }) ∧
    (∀ (q : QueryIR) (c : SegueChainIR), q.segueChain = some c →
        c.songIDs.length < 2 →
        BuildSegueShowsSQL q = .error "segue chain requires at least 2 songs") := by
  refine ⟨?_, ?_, ?_, ?_⟩
  · intro q h1 h2
    have e0 : q.qtype ≠ QueryTypeShows := by rw [h1]; decide
    have e1 : q.qtype ≠ QueryTypeSongs := by rw [h1]; decide
    have e2 : q.qtype ≠ QueryTypePerformances := by rw [h1]; decide
    unfold Generate
    rw [if_neg e0, if_neg e1, if_neg e2, if_pos h1]
    unfold genSetlist
    rw [h2]
  · intro q h1 h2 h3 h4
    unfold Generate
    rw [if_neg h1, if_neg h2, if_neg h3, if_neg h4]
  · intro q c h1 h2 h3
    have e1 : ({ q with segueChain := none } : QueryIR).qtype = QueryTypeShows := h1
    unfold Generate
    rw [if_pos h1, if_pos e1]
    unfold genShows
    rw [h2]
    have hd : (decide (2 ≤ c.songIDs.length)) = false := by
      simp only [decide_eq_false_iff_not]
      omega
    simp only [hd, Bool.false_eq_true, if_false]
    rfl
  · intro q c h1 h2
    unfold BuildSegueShowsSQL
    rw [h1]
    dsimp only
    rw [if_pos h2]

/-- C7 witness: the amended statements applied at concrete inputs: a setlist
IR without a date, query type 9, and a one-song chain. -/
theorem C7_amended_generation_errors_witness :
    Generate { qtype := QueryTypeSetlist } = .error "setlist query requires a date" ∧
    Generate { qtype := 9 } = .error "unknown query type" ∧
    Generate { qtype := QueryTypeShows, segueChain := some ⟨[7], []⟩ } =
      Generate { qtype := QueryTypeShows } ∧
    BuildSegueShowsSQL { qtype := QueryTypeShows, segueChain := some ⟨[7], []⟩ } =
      .error "segue chain requires at least 2 songs" :=
  ⟨C7_amended_generation_errors.1 _ rfl rfl,
   C7_amended_generation_errors.2.1 _ (by decide) (by decide) (by decide) (by decide),
   C7_amended_generation_errors.2.2.1 _ ⟨[7], []⟩ rfl rfl (by decide),
   C7_amended_generation_errors.2.2.2 _ ⟨[7], []⟩ rfl (by decide)⟩

/-! ## Claim C1: user text in SQL

scrubCond erases every string payload of an IR condition that originates in
the query source (guest names, lyrics words); scrubIR applies it to a whole
query.  SQL-text invariance under scrubbing formalizes "no such value appears
in the SQL text". -/

/-- Replace source-derived strings in a condition by the empty string,
preserving the condition's shape (word counts, operators, ids). -/
def scrubCond : ConditionIR → ConditionIR
  | .guest _ => .guest ""
  | .lyrics words op => .lyrics (words.map (fun _ => "")) op
  | c => c

/-- Scrub every condition of a query; the ORDER BY field is deliberately kept
(it is the one string the generator interpolates into SQL). -/
def scrubIR (q : QueryIR) : QueryIR := { q with conditions := q.conditions.map scrubCond }

theorem whereCondsShows_scrub (l : List ConditionIR) :
    (whereCondsShows (l.map scrubCond)).1 = (whereCondsShows l).1 := by
  induction l with
  | nil => rfl
  | cons c r ih =>
    cases c <;> simp [scrubCond, whereCondsShows, condPartShows, ih]

theorem whereCondsSegue_scrub (l : List ConditionIR) :
    (whereCondsSegue (l.map scrubCond)).1 = (whereCondsSegue l).1 := by
  induction l with
  | nil => rfl
  | cons c r ih =>
    cases c <;> simp [scrubCond, whereCondsSegue, condPartSegue, ih]

theorem map_const_comp_replicate (words : List String) :
    List.map ((fun _ => "l.lyrics LIKE ?") ∘ fun _ : String => "") words =
      List.replicate words.length "l.lyrics LIKE ?" := by
  induction words with
  | nil => rfl
  | cons a t iht => simp [List.replicate_succ, iht]

theorem songsCondParts_scrub (l : List ConditionIR) :
    (songsCondParts (l.map scrubCond)).1 = (songsCondParts l).1 := by
  induction l with
  | nil => rfl
  | cons c r ih =>
    cases c with
    | lyrics words op =>
      unfold songsCondParts
      simp only [List.map_cons, scrubCond, List.length_map, List.map_map]
      by_cases hw : words.length = 0
      · rw [if_pos hw, if_pos hw]
        exact ih
      · rw [if_neg hw, if_neg hw]
        simp [ih, map_const_comp_replicate]
    | position set op songID => simpa [scrubCond, songsCondParts] using ih
    | played songID => simpa [scrubCond, songsCondParts] using ih
    | guest name => simpa [scrubCond, songsCondParts] using ih
    | length songID op sec => simpa [scrubCond, songsCondParts] using ih

theorem perfCondSQL_scrub (l : List ConditionIR) :
    (perfCondSQL (l.map scrubCond)).1 = (perfCondSQL l).1 := by
  induction l with
  | nil => rfl
  | cons c r ih =>
    cases c <;> simp [scrubCond, perfCondSQL, ih]

theorem whereShows_scrub (q : QueryIR) :
    (whereShows (scrubIR q)).1 = (whereShows q).1 := by
  unfold whereShows
  have h := whereCondsShows_scrub q.conditions
  dsimp only [scrubIR] at h ⊢
  rw [h]

theorem genShows_scrub (q : QueryIR) :
    (genShows (scrubIR q)).map SQLQuery.SQL = (genShows q).map SQLQuery.SQL := by
  unfold genShows
  have hseg : (scrubIR q).segueChain = q.segueChain := rfl
  have hlim : (scrubIR q).limit = q.limit := rfl
  have hws := whereShows_scrub q
  have hord : orderBySQL (scrubIR q) "s" = orderBySQL q "s" := rfl
  rw [hseg, hlim]
  split
  · -- segue path
    unfold BuildSegueShowsSQL
    rw [hseg]
    cases hc : q.segueChain with
    | none => rfl
    | some chain =>
      dsimp only
      split
      · rfl
      · have hcw := whereCondsSegue_scrub q.conditions
        dsimp only [scrubIR] at hcw ⊢
        rw [hcw]
        cases q.limit <;> rfl
  · dsimp only [scrubIR] at hws ⊢
    rw [hws]
    cases q.limit <;> rfl

theorem genSongs_scrub (q : QueryIR) :
    (genSongs (scrubIR q)).map SQLQuery.SQL = (genSongs q).map SQLQuery.SQL := by
  unfold genSongs
  have hsc := songsCondParts_scrub q.conditions
  dsimp only [scrubIR] at hsc ⊢
  rw [hsc]
  cases q.limit <;> rfl

theorem genPerformances_scrub (q : QueryIR) :
    (genPerformances (scrubIR q)).map SQLQuery.SQL = (genPerformances q).map SQLQuery.SQL := by
  unfold genPerformances
  have hpc := perfCondSQL_scrub q.conditions
  dsimp only [scrubIR] at hpc ⊢
  cases q.songID with
  | none => rfl
  | some sid =>
    dsimp only
    rw [hpc]
    cases q.limit <;> rfl

/-- C1 counterexample: the claim that no text originating from the query
source appears in the emitted SQL, in particular for a quoted ORDER BY field,
is false: SHOWS ORDER BY "zzz" compiles successfully and the source string
zzz is interpolated into the SQL text (as the column reference s.zzz) while
the arguments vector stays empty. -/
theorem C1_counterexample :
    pipeline emptyResolver "SHOWS ORDER BY \"zzz\"" =
      .ok ⟨"SELECT s.id, s.date, s.venue_id, v.name AS venue, v.city, v.state, s.notes, s.rating FROM shows s LEFT JOIN venues v ON s.venue_id = v.id ORDER BY s.zzz ASC", []⟩ ∧
    (∃ pre post,
      "SELECT s.id, s.date, s.venue_id, v.name AS venue, v.city, v.state, s.notes, s.rating FROM shows s LEFT JOIN venues v ON s.venue_id = v.id ORDER BY s.zzz ASC" =
        pre ++ "zzz" ++ post) :=
  ⟨rfl,
   ⟨"SELECT s.id, s.date, s.venue_id, v.name AS venue, v.city, v.state, s.notes, s.rating FROM shows s LEFT JOIN venues v ON s.venue_id = v.id ORDER BY s.",
    " ASC", rfl⟩⟩

/-- C1 (amended): for every query IR, the emitted SQL text is unchanged when
every source-derived string except the ORDER BY field (guest names, lyrics
words) is replaced by the empty string: those values reach only the argument
vector.  The ORDER BY field is the exception established by the
counterexample: a quoted order-by string is interpolated (lower-cased,
alias-prefixed) into the SQL text. -/
theorem C1_amended_sql_ignores_strings (q : QueryIR) :
    (Generate (scrubIR q)).map SQLQuery.SQL = (Generate q).map SQLQuery.SQL := by
  have hqt : (scrubIR q).qtype = q.qtype := rfl
  unfold Generate
  rw [hqt]
  split_ifs
  · exact genShows_scrub q
  · exact genSongs_scrub q
  · exact genPerformances_scrub q
  · -- setlist: conditions are not read at all
    rfl
  · rfl

/-! ## Claim C2: segue-chain SQL shape -/

/-- Suffix test built from reversed prefix matching. -/
def endsWithStr (s pat : String) : Bool := startsWith s.data.reverse pat.data.reverse

/-- String-level prefix test. -/
def strStartsWith (s p : String) : Bool := startsWith s.data p.data

theorem startsWith_nil (l : List Char) : startsWith l [] = true := by
  cases l <;> rfl

theorem startsWith_append_left : ∀ (a b : List Char), startsWith (a ++ b) a = true := by
  intro a
  induction a with
  | nil => intro b; exact startsWith_nil _
  | cons c t ih => intro b; simp [startsWith, ih]

theorem startsWith_refl (l : List Char) : startsWith l l = true := by
  have := startsWith_append_left l []
  simpa using this

theorem startsWith_append_any : ∀ (p l e : List Char),
    startsWith l p = true → startsWith (l ++ e) p = true := by
  intro p
  induction p with
  | nil => intro l e _; exact startsWith_nil _
  | cons c ps ih =>
    intro l e h
    cases l with
    | nil => simp [startsWith] at h
    | cons d t =>
      simp [startsWith] at h ⊢
      exact ⟨h.1, ih t e h.2⟩

theorem strStartsWith_self (s : String) : strStartsWith s s = true := startsWith_refl _

theorem strStartsWith_append (s t p : String) (h : strStartsWith s p = true) :
    strStartsWith (s ++ t) p = true := by
  unfold strStartsWith at h ⊢
  rw [String.data_append]
  exact startsWith_append_any _ _ _ h

theorem endsWithStr_append (a b : String) : endsWithStr (a ++ b) b = true := by
  unfold endsWithStr
  rw [String.data_append, List.reverse_append]
  exact startsWith_append_left _ _

/-- A FROM-chain fragment that is a position-adjacency self-join on
performances (same show and set, consecutive positions). -/
def isAdjacencyJoinFrag (s : String) : Bool :=
  strStartsWith s " JOIN performances " && endsWithStr s ".position - 1"

/-- A songs-join fragment (JOIN songs s&lt;k&gt; bound to a song id). -/
def isSongsJoinFrag (s : String) : Bool := strStartsWith s " JOIN songs s"

/-- A segue-type constraint fragment. -/
def isSegueTypeFrag (s : String) : Bool := endsWithStr s ".segue_type = ?"

theorem adjFrag_pos (i : Nat) (h : i ≠ 0) : isAdjacencyJoinFrag (segueChainFrag i) = true := by
  unfold segueChainFrag
  rw [if_neg h]
  unfold isAdjacencyJoinFrag
  rw [Bool.and_eq_true]
  constructor
  · unfold strStartsWith
    simp only [String.data_append, List.append_assoc]
    exact startsWith_append_left _ _
  · exact endsWithStr_append _ _

theorem adjFrag_zero : isAdjacencyJoinFrag (segueChainFrag 0) = false := by decide

theorem songFrag_is (i : Nat) : isSongsJoinFrag (segueSongFrag i) = true := by
  unfold segueSongFrag isSongsJoinFrag strStartsWith
  simp only [String.data_append, List.append_assoc]
  exact startsWith_append_left _ _

theorem segFrag_is (i : Nat) : isSegueTypeFrag (segueTypeFrag i) = true := by
  unfold segueTypeFrag isSegueTypeFrag
  exact endsWithStr_append _ _

theorem chainFrag_countP (n : Nat) :
    ((List.range n).map segueChainFrag).countP isAdjacencyJoinFrag = n - 1 := by
  induction n with
  | zero => rfl
  | succ n ih =>
    rw [List.range_succ, List.map_append, List.countP_append, ih]
    cases n with
    | zero => simp [List.countP_cons, adjFrag_zero]
    | succ m =>
      simp [List.countP_cons, adjFrag_pos (m + 1) (by omega)]

theorem songFrag_countP (n : Nat) :
    ((List.range n).map segueSongFrag).countP isSongsJoinFrag = n := by
  induction n with
  | zero => rfl
  | succ n ih =>
    rw [List.range_succ, List.map_append, List.countP_append, ih]
    simp [List.countP_cons, songFrag_is n]

theorem segFrag_countP (n : Nat) :
    ((List.range n).map segueTypeFrag).countP isSegueTypeFrag = n := by
  induction n with
  | zero => rfl
  | succ n ih =>
    rw [List.range_succ, List.map_append, List.countP_append, ih]
    simp [List.countP_cons, segFrag_is n]

/-- Each condition contributes the same bound arguments on the segue path and
on the non-segue path (the SQL text differs, the argument values do not). -/
theorem whereCondsSegue_args_eq (l : List ConditionIR) :
    (whereCondsSegue l).2 = (whereCondsShows l).2 := by
  induction l with
  | nil => rfl
  | cons c r ih =>
    cases c with
    | position set op songID =>
      cases op <;>
        simp [whereCondsSegue, whereCondsShows, condPartSegue, condPartShows,
              positionCondition, ih]
    | played songID =>
      simp [whereCondsSegue, whereCondsShows, condPartSegue, condPartShows, ih]
    | guest name =>
      simp [whereCondsSegue, whereCondsShows, condPartSegue, condPartShows, ih]
    | lyrics words op =>
      simp [whereCondsSegue, whereCondsShows, condPartSegue, condPartShows, ih]
    | length songID op sec =>
      simp [whereCondsSegue, whereCondsShows, condPartSegue, condPartShows, ih]

/-- C2: for every show IR with a segue chain of n songs, n ≥ 2,
BuildSegueShowsSQL succeeds; its FROM chain has n fragments of which exactly
n−1 are position-adjacency self-joins, exactly n songs-join fragments each
carrying exactly one bound placeholder, and exactly n−1 segue-type
constraints; the emitted SQL starts with exactly these fragment groups; the
arguments are the n song ids in chain order, then the n−1 segue symbols in
chain order (operators padded with Segue when shorter than n−1), then
date-range and per-condition arguments exactly as in the non-segue case,
then the limit. -/
theorem C2_segue_chain_sql (q : QueryIR) (chain : SegueChainIR) (n : Nat)
    (hc : q.segueChain = some chain) (hlen : chain.songIDs.length = n) (hn : 2 ≤ n) :
    ∃ res, BuildSegueShowsSQL q = .ok res ∧
      ((List.range n).map segueChainFrag).length = n ∧
      ((List.range n).map segueChainFrag).countP isAdjacencyJoinFrag = n - 1 ∧
      ((List.range n).map segueSongFrag).countP isSongsJoinFrag = n ∧
      (∀ s ∈ (List.range n).map segueSongFrag, countQ s = 1) ∧
      ((List.range (n - 1)).map segueTypeFrag).countP isSegueTypeFrag = n - 1 ∧
      strStartsWith res.SQL
        ("SELECT DISTINCT s.id, s.date, s.venue_id, v.name AS venue, v.city, v.state, s.notes, s.rating FROM " ++
         concatAll ((List.range n).map segueChainFrag) ++
         concatAll ((List.range n).map segueSongFrag) ++
         concatAll ((List.range (n - 1)).map segueTypeFrag) ++
         " JOIN shows s ON p1.show_id = s.id LEFT JOIN venues v ON s.venue_id = v.id") = true ∧
      res.Args =
        chain.songIDs.map Arg.i ++
        ((padOps chain.operators (n - 1)).take (n - 1)).map (fun o => Arg.s (segueOpToSQL o)) ++
        ((match q.dateRange with
          | none => []
          | some rg => [Arg.s (formatDate rg.start), Arg.s (formatDate rg.stop)]) ++
         (whereCondsSegue q.conditions).2) ++
        (match q.limit with | none => [] | some k => [Arg.i k]) ∧
      (whereCondsSegue q.conditions).2 = (whereCondsShows q.conditions).2 ∧
      padOps chain.operators (n - 1) =
        chain.operators ++ List.replicate ((n - 1) - chain.operators.length) SegueOp.segue := by
  subst hlen
  unfold BuildSegueShowsSQL
  rw [hc]
  dsimp only
  rw [if_neg (by omega)]
  have hsongq : ∀ s ∈ (List.range chain.songIDs.length).map segueSongFrag, countQ s = 1 := by
    intro s hs
    simp only [List.mem_map] at hs
    obtain ⟨i, _, rfl⟩ := hs
    exact countQ_songFrag i
  cases hdr : q.dateRange with
  | none =>
    cases hlim : q.limit with
    | none =>
      refine ⟨_, rfl, by simp, chainFrag_countP _, songFrag_countP _, hsongq,
              segFrag_countP _, ?_, by simp, whereCondsSegue_args_eq _, rfl⟩
      exact strStartsWith_append _ _ _ (strStartsWith_append _ _ _ (strStartsWith_self _))
    | some k =>
      refine ⟨_, rfl, by simp, chainFrag_countP _, songFrag_countP _, hsongq,
              segFrag_countP _, ?_, by simp, whereCondsSegue_args_eq _, rfl⟩
      exact strStartsWith_append _ _ _
        (strStartsWith_append _ _ _ (strStartsWith_append _ _ _ (strStartsWith_self _)))
  | some rg =>
    cases hlim : q.limit with
    | none =>
      refine ⟨_, rfl, by simp, chainFrag_countP _, songFrag_countP _, hsongq,
              segFrag_countP _, ?_, by simp, whereCondsSegue_args_eq _, rfl⟩
      exact strStartsWith_append _ _ _ (strStartsWith_append _ _ _ (strStartsWith_self _))
    | some k =>
      refine ⟨_, rfl, by simp, chainFrag_countP _, songFrag_countP _, hsongq,
              segFrag_countP _, ?_, by simp, whereCondsSegue_args_eq _, rfl⟩
      exact strStartsWith_append _ _ _
        (strStartsWith_append _ _ _ (strStartsWith_append _ _ _ (strStartsWith_self _)))

set_option maxRecDepth 8000 in
/-- C2 witness: the theorem applied to a 3-song chain with a single operator
(exercising the Segue padding), a date range, a played condition and a limit. -/
theorem C2_segue_chain_sql_witness :
    2 ≤ 3 ∧
    ∃ res,
      BuildSegueShowsSQL
        { qtype := 0,
          segueChain := some (SegueChainIR.mk [1, 2, 10] [SegueOp.segue]),
          dateRange := some (ResolvedDateRange.mk (mkTime 1977 1 1 0 0 0) (mkTime 1978 12 31 23 59 59)),
          conditions := [ConditionIR.played 5], limit := some 3 } = .ok res ∧
      ((List.range 3).map segueChainFrag).length = 3 ∧
      ((List.range 3).map segueChainFrag).countP isAdjacencyJoinFrag = 3 - 1 ∧
      ((List.range 3).map segueSongFrag).countP isSongsJoinFrag = 3 ∧
      (∀ s ∈ (List.range 3).map segueSongFrag, countQ s = 1) ∧
      ((List.range (3 - 1)).map segueTypeFrag).countP isSegueTypeFrag = 3 - 1 ∧
      strStartsWith res.SQL
        ("SELECT DISTINCT s.id, s.date, s.venue_id, v.name AS venue, v.city, v.state, s.notes, s.rating FROM " ++
         concatAll ((List.range 3).map segueChainFrag) ++
         concatAll ((List.range 3).map segueSongFrag) ++
         concatAll ((List.range (3 - 1)).map segueTypeFrag) ++
         " JOIN shows s ON p1.show_id = s.id LEFT JOIN venues v ON s.venue_id = v.id") = true ∧
      res.Args =
        ([1, 2, 10].map Arg.i) ++
        ((padOps [SegueOp.segue] (3 - 1)).take (3 - 1)).map (fun o => Arg.s (segueOpToSQL o)) ++
        ([Arg.s "1977-01-01", Arg.s "1978-12-31"] ++
         (whereCondsSegue [ConditionIR.played 5]).2) ++
        [Arg.i 3] ∧
      (whereCondsSegue [ConditionIR.played 5]).2 = (whereCondsShows [ConditionIR.played 5]).2 ∧
      padOps [SegueOp.segue] (3 - 1) =
        [SegueOp.segue] ++ List.replicate ((3 - 1) - 1) SegueOp.segue :=
  ⟨by decide,
   C2_segue_chain_sql
     { qtype := 0,
       segueChain := some (SegueChainIR.mk [1, 2, 10] [SegueOp.segue]),
       dateRange := some (ResolvedDateRange.mk (mkTime 1977 1 1 0 0 0) (mkTime 1978 12 31 23 59 59)),
       conditions := [ConditionIR.played 5], limit := some 3 }
     (SegueChainIR.mk [1, 2, 10] [SegueOp.segue]) 3 rfl rfl (by decide)⟩

/-! ## Claim C4: duration unit parsing -/

/-- C4: the lexer emits DURATION tokens for all eight unit words, but the
planner's parseDuration recognizes only the exact suffixes min and sec: the
other listed unit words (mins, minute, minutes, secs, second, seconds) fall
into the unrecognized-unit branch and yield zero seconds with no error,
while 20min, 15 min and 30sec parse to 1200, 900 and 30 seconds. -/
theorem C4_duration_units :
    lexAll "20mins" = [⟨.DURATION, "20mins"⟩, ⟨.EOF, ""⟩] ∧
    parseDuration "20mins" = (0, false) ∧
    lexAll "20 minutes" = [⟨.DURATION, "20minutes"⟩, ⟨.EOF, ""⟩] ∧
    parseDuration "20minutes" = (0, false) ∧
    parseDuration "20secs" = (0, false) ∧
    parseDuration "20seconds" = (0, false) ∧
    parseDuration "20min" = (1200, false) ∧
    parseDuration "15 min" = (900, false) ∧
    parseDuration "30sec" = (30, false) :=
  ⟨rfl, rfl, rfl, rfl, rfl, rfl, rfl, rfl, rfl⟩

/-! ## Claim C5: SETLIST FOR a quoted string -/

/-- C5 counterexample: for SETLIST FOR "Cornell 1977" the planner does NOT
pass nil for single_date and generation does NOT fail: ExpandDate defaults
the season-only date to 1970-01-01, and the pipeline succeeds, binding
1970-01-01. -/
theorem C5_counterexample :
    parsePlan emptyResolver "SETLIST FOR \"Cornell 1977\"" =
      .ok { qtype := QueryTypeSetlist, singleDate := some (mkTime 1970 1 1 0 0 0) } ∧
    pipeline emptyResolver "SETLIST FOR \"Cornell 1977\"" =
      .ok ⟨"SELECT p.id, p.show_id, p.song_id, p.set_number, p.position, p.segue_type, p.length_seconds, songs.name FROM performances p JOIN shows s ON p.show_id = s.id JOIN songs ON p.song_id = songs.id WHERE s.date = ? ORDER BY p.set_number, p.position",
           [Arg.s "1970-01-01"]⟩ :=
  ⟨rfl, rfl⟩

/-- C5 (amended): the parser stores the quoted literal in the Date's season
field with year 0; the planner then expands that date with defaults (year
1970, month 1, day 1) and stores 1970-01-01T00:00:00Z in single_date; SQL
generation therefore succeeds, binding "1970-01-01" as the only argument. -/
theorem C5_amended_setlist_string_date :
    parseGDQL "SETLIST FOR \"Cornell 1977\"" =
      .ok (.setlist { date := some { year := 0, month := 0, day := 0, season := "Cornell 1977" } }) ∧
    ExpandDate { year := 0, month := 0, day := 0, season := "Cornell 1977" } =
      mkTime 1970 1 1 0 0 0 ∧
    planSetlist { date := some { year := 0, month := 0, day := 0, season := "Cornell 1977" } } =
      .ok { qtype := QueryTypeSetlist, singleDate := some (mkTime 1970 1 1 0 0 0) } ∧
    Generate { qtype := QueryTypeSetlist, singleDate := some (mkTime 1970 1 1 0 0 0) } =
      .ok ⟨"SELECT p.id, p.show_id, p.song_id, p.set_number, p.position, p.segue_type, p.length_seconds, songs.name FROM performances p JOIN shows s ON p.show_id = s.id JOIN songs ON p.song_id = songs.id WHERE s.date = ? ORDER BY p.set_number, p.position",
           [Arg.s "1970-01-01"]⟩ :=
  ⟨rfl, rfl, rfl, rfl⟩

/-! ## Claim C8: expanded date ranges are ordered -/

/-- C8 counterexample: the parser stores FROM 1980-1977 verbatim and the
expander does not swap the bounds, so the resolved range has start > end,
refuting the claim that every expansion of a parser-produced range satisfies
start ≤ end. -/
theorem C8_counterexample :
    parseGDQL "SHOWS FROM 1980-1977" =
      .ok (.show { fromRange := some { start := some { year := 1980 },
                                       stop := some { year := 1977 } } }) ∧
    Expand { start := some { year := 1980 }, stop := some { year := 1977 } } =
      some ⟨mkTime 1980 1 1 0 0 0, mkTime 1977 12 31 23 59 59⟩ ∧
    GTime.leb (mkTime 1980 1 1 0 0 0) (mkTime 1977 12 31 23 59 59) = false :=
  ⟨rfl, rfl, by decide⟩

/-- C8 (amended): every ResolvedDateRange produced by Expand from a bare
year, an era alias, or a year range whose start year does not exceed its end
year satisfies start ≤ end; a reversed year range is the exception (no swap
is performed). -/
theorem C8_amended_expand_ordered (dr : Ast.DateRange) (r : ResolvedDateRange)
    (h : Expand dr = some r)
    (hmono : ∀ ds de, dr.era = none → dr.start = some ds → dr.stop = some de →
      ds.year ≤ de.year) :
    r.start.leb r.stop = true := by
  unfold Expand at h
  cases he : dr.era with
  | some e =>
    rw [he] at h
    cases e <;>
      (simp only [ExpandEra, Option.some.injEq] at h
       subst h
       decide)
  | none =>
    rw [he] at h
    cases hs : dr.start with
    | none =>
      rw [hs] at h
      simp at h
    | some st =>
      rw [hs] at h
      cases hp : dr.stop with
      | none =>
        rw [hp] at h
        simp only [Option.some.injEq] at h
        subst h
        simp only [GTime.leb, mkTime]
        rw [if_neg (lt_irrefl _), if_neg (lt_irrefl _), if_pos (by norm_num : (1:Int) < 12)]
      | some en =>
        rw [hp] at h
        simp only [Option.some.injEq] at h
        subst h
        have hy := hmono st en he hs hp
        simp only [GTime.leb, mkTime]
        rcases lt_or_eq_of_le hy with hlt | heq
        · rw [if_pos hlt]
        · rw [heq]
          rw [if_neg (lt_irrefl _), if_neg (lt_irrefl _), if_pos (by norm_num : (1:Int) < 12)]

/-- C8 witness: the amended theorem at the range 1977-1980. -/
theorem C8_amended_expand_ordered_witness :
    Expand { start := some { year := 1977 }, stop := some { year := 1980 } } =
      some ⟨mkTime 1977 1 1 0 0 0, mkTime 1980 12 31 23 59 59⟩ ∧
    GTime.leb (mkTime 1977 1 1 0 0 0) (mkTime 1980 12 31 23 59 59) = true :=
  ⟨rfl,
   C8_amended_expand_ordered
     { start := some { year := 1977 }, stop := some { year := 1980 } }
     ⟨mkTime 1977 1 1 0 0 0, mkTime 1980 12 31 23 59 59⟩ rfl
     (by intro ds de _ h1 h2; cases h1; cases h2; decide)⟩

/-! ## Claim C9: a segue condition after the first position is dropped -/

theorem planShowConds_drop (r : Resolver) (songs : List Ast.SongRef)
    (ops : List Ast.SegueOp) :
    ∀ pre post : List Ast.Condition,
      planShowConds r false (pre ++ [Ast.Condition.segue songs ops] ++ post) =
      planShowConds r false (pre ++ post) := by
  intro pre
  induction pre with
  | nil =>
    intro post
    show planShowConds r false (Ast.Condition.segue songs ops :: post) =
      planShowConds r false post
    cases ht : planShowConds r false post with
    | error e =>
      simp only [planShowConds, conditionToIR]
      rw [ht]
      rfl
    | ok t =>
      simp only [planShowConds, conditionToIR]
      rw [ht]
      rfl
  | cons c pre ih =>
    intro post
    show planShowConds r false (c :: (pre ++ [Ast.Condition.segue songs ops] ++ post)) =
      planShowConds r false (c :: (pre ++ post))
    unfold planShowConds
    rw [ih post]

/-- C9: in a show query whose WHERE clause contains a segue condition at any
position other than the first, the planner neither lifts it into the segue
chain nor keeps it in the condition list: planning behaves, for every
resolver, exactly as if the condition were absent (and conditionToIR maps a
segue condition to ok-none without resolving its songs). -/
theorem C9_segue_not_first_dropped (r : Resolver) (fromR : Option Ast.DateRange)
    (orderB : Option Ast.OrderClause) (lim : Option Int) (fmtv : Ast.OutputFormat)
    (c0 : Ast.Condition) (pre post : List Ast.Condition)
    (songs : List Ast.SongRef) (ops : List Ast.SegueOp)
    (lops lops2 : List Ast.LogicOp) :
    planShow r { fromRange := fromR,
                 whereC := some ⟨c0 :: (pre ++ [Ast.Condition.segue songs ops] ++ post), lops⟩,
                 orderBy := orderB, limit := lim, outputFmt := fmtv } =
      planShow r { fromRange := fromR,
                   whereC := some ⟨c0 :: (pre ++ post), lops2⟩,
                   orderBy := orderB, limit := lim, outputFmt := fmtv } ∧
    conditionToIR r (Ast.Condition.segue songs ops) = .ok none := by
  refine ⟨?_, rfl⟩
  have hMain : planShowConds r true (c0 :: (pre ++ [Ast.Condition.segue songs ops] ++ post)) =
      planShowConds r true (c0 :: (pre ++ post)) := by
    cases c0 <;>
      (unfold planShowConds
       rw [planShowConds_drop r songs ops pre post])
  unfold planShow
  dsimp only
  rw [hMain]

/-! ## C6: resolver matching precedence -/

theorem find_map_mem {a b : Type} (l : List a) (p : a → Bool) (f : a → b) (v : b)
    (h : (l.find? p).map f = some v) : ∃ x ∈ l, p x = true ∧ f x = v := by
  cases hf : l.find? p with
  | none => rw [hf] at h; cases h
  | some x =>
    rw [hf] at h
    injection h with hv
    exact ⟨x, List.mem_of_find?_eq_some hf, List.find?_some hf, hv⟩

/-- C6, counterexample: the static map-backed resolver has no alias table and
no suffix-trimming stage.  With the single song "Dark Star" known, resolving
"Dark Star -" fails in the static resolver (the spec says stage 4 trims the
trailing " -"), while the DataSource-backed resolver resolves it through
GetSong query 3. -/
theorem C6_counterexample :
    staticResolve [("Dark Star", 10)] "Dark Star -" = Except.error "Dark Star -" ∧
    dsResolve [⟨10, "Dark Star"⟩] [] "Dark Star -" = Except.ok 10 := by
  exact ⟨rfl, rfl⟩

/-- C6, amended: the two resolvers follow different stage lists.  The static
resolver has exactly two stages — exact map lookup, then a case-insensitive
scan — and any success comes from one of them (so no alias or trimmed-suffix
matching exists); it errors with the name iff both miss.  The DataSource
resolver has exactly three stages in order — exact-or-case-insensitive name
query, alias-table query, trim-dashes-and-spaces query — and errors with the
name iff all three miss. -/
theorem C6_amended_resolver_stages
    (m : List (String × Int)) (songs : List SongRow) (aliases : List AliasRow)
    (name : String) :
    (∀ i, staticResolveExact m name = some i → staticResolve m name = Except.ok i) ∧
    (staticResolveExact m name = none → ∀ i, staticResolveCI m name = some i →
      staticResolve m name = Except.ok i) ∧
    (staticResolve m name = Except.error name ↔
      staticResolveExact m name = none ∧ staticResolveCI m name = none) ∧
    (∀ i, staticResolve m name = Except.ok i →
      ∃ p ∈ m, p.2 = i ∧ (p.1 = name ∨ strLower p.1 = strLower name)) ∧
    (∀ s, getSongStage1 songs name = some s →
      dsResolve songs aliases name = Except.ok s.id) ∧
    (getSongStage1 songs name = none → ∀ s, getSongStage2 songs aliases name = some s →
      dsResolve songs aliases name = Except.ok s.id) ∧
    (getSongStage1 songs name = none → getSongStage2 songs aliases name = none →
      ∀ s, getSongStage3 songs name = some s →
        dsResolve songs aliases name = Except.ok s.id) ∧
    (dsResolve songs aliases name = Except.error name ↔
      getSongStage1 songs name = none ∧ getSongStage2 songs aliases name = none ∧
      getSongStage3 songs name = none) := by
  refine ⟨?_, ?_, ?_, ?_, ?_, ?_, ?_, ?_⟩
  · intro i h
    simp [staticResolve, h]
  · intro h0 i h
    simp [staticResolve, h0, h]
  · constructor
    · intro h
      cases h1 : staticResolveExact m name with
      | some i => simp [staticResolve, h1] at h
      | none =>
        cases h2 : staticResolveCI m name with
        | some i => simp [staticResolve, h1, h2] at h
        | none => exact ⟨rfl, rfl⟩
    · rintro ⟨h1, h2⟩
      simp [staticResolve, h1, h2]
  · intro i h
    unfold staticResolve at h
    cases h1 : staticResolveExact m name with
    | some j =>
      rw [h1] at h
      injection h with hj
      subst hj
      obtain ⟨p, hm, hp, hv⟩ := find_map_mem m (fun p => decide (p.1 = name))
        (fun p => p.2) j h1
      exact ⟨p, hm, hv, Or.inl (of_decide_eq_true hp)⟩
    | none =>
      rw [h1] at h
      cases h2 : staticResolveCI m name with
      | some j =>
        rw [h2] at h
        injection h with hj
        subst hj
        obtain ⟨p, hm, hp, hv⟩ := find_map_mem m
          (fun p => decide (strLower p.1 = strLower name)) (fun p => p.2) j h2
        exact ⟨p, hm, hv, Or.inr (of_decide_eq_true hp)⟩
      | none =>
        rw [h2] at h
        cases h
  · intro s h
    simp [dsResolve, GetSong, h]
  · intro h1 s h
    simp [dsResolve, GetSong, h1, h]
  · intro h1 h2 s h
    simp [dsResolve, GetSong, h1, h2, h]
  · constructor
    · intro h
      cases h1 : getSongStage1 songs name with
      | some s => simp [dsResolve, GetSong, h1] at h
      | none =>
        cases h2 : getSongStage2 songs aliases name with
        | some s => simp [dsResolve, GetSong, h1, h2] at h
        | none =>
          cases h3 : getSongStage3 songs name with
          | some s => simp [dsResolve, GetSong, h1, h2, h3] at h
          | none => exact ⟨rfl, rfl, rfl⟩
    · rintro ⟨h1, h2, h3⟩
      simp [dsResolve, GetSong, h1, h2, h3]

/-- C6 witness: the case-insensitive static stage resolves "RIPPLE", and the
trimming GetSong stage resolves "- Ripple -". -/
theorem C6_amended_resolver_stages_witness :
    staticResolve [("Ripple", 5)] "RIPPLE" = Except.ok 5 ∧
    dsResolve [⟨7, "Ripple"⟩] [⟨"Rip", 7⟩] "- Ripple -" = Except.ok 7 := by
  constructor
  · exact (C6_amended_resolver_stages [("Ripple", 5)] [] [] "RIPPLE").2.1
      (by decide) 5 (by decide)
  · exact (C6_amended_resolver_stages [] [⟨7, "Ripple"⟩] [⟨"Rip", 7⟩]
      "- Ripple -").2.2.2.2.2.2.1 (by decide) (by decide) ⟨7, "Ripple"⟩ (by decide)

/-! ## C10: executor row mapping is total -/

theorem mapShowsRows_filter (rows : List (List Value)) :
    mapShowsRows rows =
      (rows.filter (fun row => decide (8 ≤ row.length))).map showFromRow := by
  induction rows with
  | nil => rfl
  | cons row rest ih =>
    by_cases h : row.length < 8
    · rw [mapShowsRows, if_pos h, List.filter_cons,
        if_neg (by simpa using Nat.not_le.mpr h), ih]
    · rw [mapShowsRows, if_neg h, List.filter_cons,
        if_pos (by simpa using Nat.not_lt.mp h), List.map_cons, ih]

theorem mapSongsRows_filter (rows : List (List Value)) :
    mapSongsRows rows =
      (rows.filter (fun row => decide (7 ≤ row.length))).map songFromRow := by
  induction rows with
  | nil => rfl
  | cons row rest ih =>
    by_cases h : row.length < 7
    · rw [mapSongsRows, if_pos h, List.filter_cons,
        if_neg (by simpa using Nat.not_le.mpr h), ih]
    · rw [mapSongsRows, if_neg h, List.filter_cons,
        if_pos (by simpa using Nat.not_lt.mp h), List.map_cons, ih]

theorem mapPerfRows_filter (rows : List (List Value)) :
    mapPerfRows rows =
      (rows.filter (fun row => decide (7 ≤ row.length))).map perfFromRow := by
  induction rows with
  | nil => rfl
  | cons row rest ih =>
    by_cases h : row.length < 7
    · rw [mapPerfRows, if_pos h, List.filter_cons,
        if_neg (by simpa using Nat.not_le.mpr h), ih]
    · rw [mapPerfRows, if_neg h, List.filter_cons,
        if_pos (by simpa using Nat.not_lt.mp h), List.map_cons, ih]

/-- C10: executor row mapping is total and never errors.  Each mapper returns
ok of exactly the long-enough rows (at least 8 columns for shows, 7 for songs
and performances) mapped through its field extractor — short rows are
silently skipped, never reported.  Cell conversion degrades to zero values: a
date string is parsed as YYYY-MM-DD with failures giving the zero time, and
every unexpected cell type maps to 0, the empty string, or the zero time. -/
theorem C10_row_mapping_total (rs : ResultSet) (s : String) (n : Int) (q : Rat)
    (b : List UInt8) :
    mapRowsToShows rs =
      Except.ok ((rs.rows.filter (fun row => decide (8 ≤ row.length))).map showFromRow) ∧
    mapRowsToSongs rs =
      Except.ok ((rs.rows.filter (fun row => decide (7 ≤ row.length))).map songFromRow) ∧
    mapRowsToPerformances rs =
      Except.ok ((rs.rows.filter (fun row => decide (7 ≤ row.length))).map perfFromRow) ∧
    timeVal (Value.vStr s) = (parseYMD s).getD zeroTime ∧
    intVal (Value.vStr s) = 0 ∧ intVal Value.vNull = 0 ∧ intVal (Value.vBytes b) = 0 ∧
    floatVal (Value.vStr s) = 0 ∧ floatVal Value.vNull = 0 ∧
    strVal (Value.vInt n) = "" ∧ strVal (Value.vFloat q) = "" ∧ strVal Value.vNull = "" ∧
    timeVal (Value.vInt n) = zeroTime ∧ timeVal Value.vNull = zeroTime := by
  refine ⟨?_, ?_, ?_, ?_, rfl, rfl, rfl, rfl, rfl, rfl, rfl, rfl, rfl, rfl⟩
  · exact congrArg Except.ok (mapShowsRows_filter rs.rows)
  · exact congrArg Except.ok (mapSongsRows_filter rs.rows)
  · exact congrArg Except.ok (mapPerfRows_filter rs.rows)
  · cases h : parseYMD s <;> simp [timeVal, h]

end GDQL
